import Mathlib

/-!
Verification of the graphrag DGraph import engine against its specification.

The definitions below are a shallow embedding of the Python sources under
src/graphrag/index/dgraph/: the value universe that flows through the
importer, the per-entity-type configuration tables, the layered validators,
the converters, the import manager loop and the transactional batch importer.
Each definition carries a comment naming the Python function it translates.
The target store transport (pydgraph) is external to the repository; its
minimal contract (open a transaction, query, mutate with set objects,
commit/discard) is modelled from the specification, section 6.
-/

namespace GraphragSpec

/-- The universe of Python values that flow through the importer: scalars,
pandas NaN markers, datetime-like values (represented by their canonical
ISO string), numpy arrays, lists and dicts.  Floats are modelled as
rationals; binary payloads and sets/tuples are outside the modelled
fragment (no claim observes them). -/
inductive Value where
  | null
  | bool (b : Bool)
  | int (n : Int)
  | float (q : Rat)
  | nan
  | str (s : String)
  | timestamp (iso : String)
  | npArray (vs : List Value)
  | list (vs : List Value)
  | dict (kvs : List (String × Value))

/-- `value is None` in Python. -/
def isNullV : Value → Bool
  | .null => true
  | _ => false

/-- `isinstance(value, float) and pd.isna(value)`: the scalar NaN test used
by the converters. -/
def isNanV : Value → Bool
  | .nan => true
  | _ => false

/-- A record (Python dict with string keys): association list in insertion
order, keys unique by construction. -/
abbrev Record := List (String × Value)

/-- Dict lookup: first binding of the key. -/
def lookupField : Record → String → Option Value
  | [], _ => none
  | (k, v) :: r, key => if k = key then some v else lookupField r key

/-- `key in dict`. -/
def hasField (r : Record) (k : String) : Bool :=
  (lookupField r k).isSome

/-- Dict access with a null default (total variant of `dict[key]`;
callers only use it under a `hasField` guard). -/
def getField (r : Record) (k : String) : Value :=
  (lookupField r k).getD .null

/-- Dict assignment `dict[key] = value`: replaces in place when the key
exists, appends otherwise (Python dict insertion-order semantics). -/
def setField : Record → String → Value → Record
  | [], k, v => [(k, v)]
  | (k', v') :: r, k, v =>
    if k' = k then (k, v) :: r else (k', v') :: setField r k v

/-! ## Python scalar conversions (str, int, float) -/

/-- Decimal rendering of a rational for Python float str(); exact only for
integral values, which is the only case a verified claim observes. -/
def floatRepr (q : Rat) : String :=
  if q.den = 1 then toString q.num ++ ".0"
  else toString q.num ++ "/" ++ toString q.den

mutual

/-- Python `str(value)` on the modelled universe.  Containers use the
element repr (strings single-quoted), as Python does. -/
def pyStr : Value → String
  | .null => "None"
  | .bool true => "True"
  | .bool false => "False"
  | .int n => toString n
  | .float q => floatRepr q
  | .nan => "nan"
  | .str s => s
  | .timestamp iso => iso
  | .npArray vs => "[" ++ String.intercalate ", " (pyReprList vs) ++ "]"
  | .list vs => "[" ++ String.intercalate ", " (pyReprList vs) ++ "]"
  | .dict kvs => "\x7b" ++ String.intercalate ", " (pyReprDict kvs) ++ "\x7d"

/-- The element reprs of a rendered container (strings single-quoted). -/
def pyReprList : List Value → List String
  | [] => []
  | .str s :: vs => ("\x27" ++ s ++ "\x27") :: pyReprList vs
  | v :: vs => pyStr v :: pyReprList vs

/-- The member reprs of a rendered dict. -/
def pyReprDict : List (String × Value) → List String
  | [] => []
  | (k, .str s) :: kvs =>
    ("\x27" ++ k ++ "\x27: " ++ ("\x27" ++ s ++ "\x27")) :: pyReprDict kvs
  | (k, v) :: kvs => ("\x27" ++ k ++ "\x27: " ++ pyStr v) :: pyReprDict kvs

end

/-- Digits of a nonempty decimal literal to a natural number. -/
def digitsToNat (cs : List Char) : Nat :=
  cs.foldl (fun acc c => acc * 10 + (c.toNat - '0'.toNat)) 0

/-- The ASCII whitespace Python `str.strip()` removes. -/
def isPyWs (c : Char) : Bool :=
  c = ' ' || c = '\t' || c = '\n' || c = '\r' || c = '\x0b' || c = '\x0c'

/-- `s.strip()` on character lists. -/
def trimChars (cs : List Char) : List Char :=
  ((cs.dropWhile isPyWs).reverse.dropWhile isPyWs).reverse

/-- Python `int(string)` acceptance: optional surrounding whitespace, an
optional sign, then at least one decimal digit (underscore grouping is
outside the modelled fragment). -/
def intStrAccepts (s : String) : Bool :=
  let t := trimChars s.toList
  let t := match t with
    | '-' :: rest => rest
    | '+' :: rest => rest
    | other => other
  !t.isEmpty && t.all Char.isDigit

/-- Python `int(string)` value on accepted strings. -/
def intStrParse (s : String) : Int :=
  let t := trimChars s.toList
  match t with
  | '-' :: rest => -(digitsToNat rest : Int)
  | '+' :: rest => (digitsToNat rest : Int)
  | other => (digitsToNat other : Int)

/-- Python `float(string)` on the modelled fragment: optional surrounding
whitespace and sign, digits with an optional fractional part
(`inf`/`nan`/exponent spellings are outside the fragment). -/
def floatStrParse (s : String) : Option Rat :=
  let t := trimChars s.toList
  let (neg, t) := match t with
    | '-' :: rest => (true, rest)
    | '+' :: rest => (false, rest)
    | other => (false, other)
  let intPart := t.takeWhile Char.isDigit
  let rest := t.dropWhile Char.isDigit
  let ok :=
    match rest with
    | [] => !intPart.isEmpty
    | '.' :: frac => (!intPart.isEmpty || !frac.isEmpty) && frac.all Char.isDigit
    | _ => false
  if ok then
    let frac := match rest with
      | '.' :: f => f
      | _ => []
    let num : Int := (digitsToNat intPart * 10 ^ frac.length + digitsToNat frac : Nat)
    let q : Rat := (num : Rat) / ((10 ^ frac.length : Nat) : Rat)
    some (if neg then -q else q)
  else none

/-- Truncation toward zero, as Python `int(float)` does. -/
def ratTruncate (q : Rat) : Int :=
  if 0 ≤ q then ⌊q⌋ else -⌊-q⌋

/-- Python `int(value)`: `none` models a raised `ValueError`/`TypeError`
(`int(nan)` raises, containers and `None` raise `TypeError`). -/
def pyIntCoerce : Value → Option Value
  | .str s => if intStrAccepts s then some (.int (intStrParse s)) else none
  | .int n => some (.int n)
  | .float q => some (.int (ratTruncate q))
  | .bool b => some (.int (if b then 1 else 0))
  | _ => none

/-- Python `float(value)`: `none` models a raised error
(`float(nan)` succeeds and stays NaN). -/
def pyFloatCoerce : Value → Option Value
  | .str s =>
    match floatStrParse s with
    | some q => some (.float q)
    | none => none
  | .int n => some (.float (n : Rat))
  | .float q => some (.float q)
  | .nan => some .nan
  | .bool b => some (.float (if b then 1 else 0))
  | _ => none

/-! ## Character-level string helpers -/

/-- Fuel-indexed worker for `stripPat`; each step consumes at least one
character, so fuel equal to the input length suffices. -/
def stripPatAux (pat : List Char) : Nat → List Char → List Char
  | 0, cs => cs
  | _ + 1, [] => []
  | fuel + 1, c :: rest =>
    if pat.isPrefixOf (c :: rest) && !pat.isEmpty then
      stripPatAux pat fuel ((c :: rest).drop pat.length)
    else
      c :: stripPatAux pat fuel rest

/-- `s.replace(pat, "")` on character lists: removes every (left-to-right,
non-overlapping) occurrence of a nonempty pattern. -/
def stripPat (pat cs : List Char) : List Char :=
  stripPatAux pat cs.length cs

/-- `s.strip(chars)` on character lists: removes the given characters from
both ends. -/
def stripEnds (chars : List Char) (cs : List Char) : List Char :=
  ((cs.dropWhile (chars.contains ·)).reverse.dropWhile (chars.contains ·)).reverse

/-- A hexadecimal digit (`[0-9a-fA-F]`). -/
def hexChar (c : Char) : Bool :=
  c.isDigit || ('a' ≤ c && c ≤ 'f') || ('A' ≤ c && c ≤ 'F')

/-- Acceptance of `uuid.UUID(id_value)`: Python removes every `urn:` and
`uuid:` substring, strips surrounding braces, removes hyphens, then
requires exactly 32 characters forming a hexadecimal number (the
whitespace/underscore leniency of `int(x, 16)` is outside the fragment). -/
def uuidAccepts (s : String) : Bool :=
  let cs := stripPat "urn:".toList s.toList
  let cs := stripPat "uuid:".toList cs
  let cs := stripEnds ['\x7b', '\x7d'] cs
  let cs := cs.filter (· ≠ '-')
  cs.length = 32 && cs.all hexChar

/-- Acceptance of the hash id rule, the regex
`^[0-9a-fA-F]\x7b32,\x7d$` of `StorageValidator.validate_id_format`:
a hexadecimal string of length at least 32 (end-of-line `$` is modelled
as end of string). -/
def hashAccepts (s : String) : Bool :=
  32 ≤ s.length && s.toList.all hexChar

/-! ## datetime.fromisoformat model -/

/-- Gregorian leap year. -/
def isLeapYear (y : Nat) : Bool :=
  y % 4 = 0 && (y % 100 ≠ 0 || y % 400 = 0)

/-- Days in a month. -/
def monthDays (y m : Nat) : Nat :=
  if m = 2 then (if isLeapYear y then 29 else 28)
  else if m = 4 || m = 6 || m = 9 || m = 11 then 30
  else 31

/-- Numeric value of a two-digit group. -/
def twoDigits (a b : Char) : Nat :=
  (a.toNat - '0'.toNat) * 10 + (b.toNat - '0'.toNat)

/-- Deterministic fragment model of Python `datetime.fromisoformat`
(3.10 semantics, `T` separator only): accepts `YYYY-MM-DD` and
`YYYY-MM-DDTHH:MM:SS`, returning the canonical `isoformat()` string of the
parsed value (a bare date re-emits with `T00:00:00` appended by the later
`isoformat()` call on the datetime object). -/
def pyFromIso (s : String) : Option String :=
  match s.toList with
  | [y1, y2, y3, y4, '-', m1, m2, '-', d1, d2] =>
    if [y1, y2, y3, y4, m1, m2, d1, d2].all Char.isDigit then
      let y := digitsToNat [y1, y2, y3, y4]
      let m := twoDigits m1 m2
      let d := twoDigits d1 d2
      if 1 ≤ m && m ≤ 12 && 1 ≤ d && d ≤ monthDays y m && 1 ≤ y then
        some (s ++ "T00:00:00")
      else none
    else none
  | [y1, y2, y3, y4, '-', m1, m2, '-', d1, d2, 'T',
     h1, h2, ':', mi1, mi2, ':', s1, s2] =>
    if [y1, y2, y3, y4, m1, m2, d1, d2, h1, h2, mi1, mi2, s1, s2].all Char.isDigit then
      let y := digitsToNat [y1, y2, y3, y4]
      let m := twoDigits m1 m2
      let d := twoDigits d1 d2
      if 1 ≤ m && m ≤ 12 && 1 ≤ d && d ≤ monthDays y m && 1 ≤ y
          && twoDigits h1 h2 ≤ 23 && twoDigits mi1 mi2 ≤ 59 && twoDigits s1 s2 ≤ 59 then
        some s
      else none
    else none
  | _ => none

/-- `field_value.replace(' ', 'T', 1)`: replace only the first space. -/
def replaceFirstSpaceT : List Char → List Char
  | [] => []
  | c :: rest => if c = ' ' then 'T' :: rest else c :: replaceFirstSpaceT rest

/-- String wrapper for `replaceFirstSpaceT`. -/
def replaceFirstSpaceTStr (s : String) : String :=
  String.mk (replaceFirstSpaceT s.toList)

/-! ## JSON model (json.loads / json.dumps fragment) -/

/-- Skip JSON whitespace. -/
def jsonSkipWs (cs : List Char) : List Char :=
  cs.dropWhile (fun c => c = ' ' || c = '\t' || c = '\n' || c = '\r')

/-- Parse a JSON string body up to the closing quote (escape sequences are
outside the modelled fragment). -/
def jsonParseStringBody : List Char → Option (String × List Char)
  | [] => none
  | '"' :: rest => some ("", rest)
  | '\\' :: _ => none
  | c :: rest =>
    match jsonParseStringBody rest with
    | some (s, r) => some (String.mk (c :: s.toList), r)
    | none => none

/-- Parse a JSON number from a character list (integers and simple
decimals, no exponents). -/
def jsonParseNumber (cs : List Char) : Option (Value × List Char) :=
  let (neg, t) := match cs with
    | '-' :: rest => (true, rest)
    | other => (false, other)
  let intPart := t.takeWhile Char.isDigit
  let t2 := t.dropWhile Char.isDigit
  if intPart.isEmpty then none
  else
    match t2 with
    | '.' :: t3 =>
      let frac := t3.takeWhile Char.isDigit
      if frac.isEmpty then none
      else
        let num : Int := (digitsToNat intPart * 10 ^ frac.length + digitsToNat frac : Nat)
        let q : Rat := (num : Rat) / ((10 ^ frac.length : Nat) : Rat)
        some (.float (if neg then -q else q), t3.dropWhile Char.isDigit)
    | _ =>
      let n : Int := (digitsToNat intPart : Nat)
      some (.int (if neg then -n else n), t2)

mutual

/-- Fuel-indexed recursive-descent parser for the modelled JSON fragment:
null, booleans, integers and simple decimals, escape-free strings, arrays
and string-keyed objects. -/
def jsonParseVal : Nat → List Char → Option (Value × List Char)
  | 0, _ => none
  | fuel + 1, cs =>
    match jsonSkipWs cs with
    | 'n' :: 'u' :: 'l' :: 'l' :: rest => some (.null, rest)
    | 't' :: 'r' :: 'u' :: 'e' :: rest => some (.bool true, rest)
    | 'f' :: 'a' :: 'l' :: 's' :: 'e' :: rest => some (.bool false, rest)
    | '"' :: rest =>
      match jsonParseStringBody rest with
      | some (s, r) => some (.str s, r)
      | none => none
    | '[' :: rest =>
      match jsonSkipWs rest with
      | ']' :: r => some (.list [], r)
      | cs2 =>
        match jsonParseElems fuel cs2 with
        | some (vs, r) => some (.list vs, r)
        | none => none
    | '\x7b' :: rest =>
      match jsonSkipWs rest with
      | '\x7d' :: r => some (.dict [], r)
      | cs2 =>
        match jsonParseMembers fuel cs2 with
        | some (kvs, r) => some (.dict kvs, r)
        | none => none
    | cs' => jsonParseNumber cs'

/-- Comma-separated array elements up to the closing bracket. -/
def jsonParseElems : Nat → List Char → Option (List Value × List Char)
  | 0, _ => none
  | fuel + 1, cs =>
    match jsonParseVal fuel cs with
    | none => none
    | some (v, r) =>
      match jsonSkipWs r with
      | ',' :: r2 =>
        match jsonParseElems fuel r2 with
        | some (vs, r3) => some (v :: vs, r3)
        | none => none
      | ']' :: r2 => some ([v], r2)
      | _ => none

/-- Comma-separated object members up to the closing brace. -/
def jsonParseMembers : Nat → List Char → Option (List (String × Value) × List Char)
  | 0, _ => none
  | fuel + 1, cs =>
    match jsonSkipWs cs with
    | '"' :: rest =>
      match jsonParseStringBody rest with
      | none => none
      | some (k, r) =>
        match jsonSkipWs r with
        | ':' :: r2 =>
          match jsonParseVal fuel r2 with
          | none => none
          | some (v, r3) =>
            match jsonSkipWs r3 with
            | ',' :: r4 =>
              match jsonParseMembers fuel r4 with
              | some (kvs, r5) => some ((k, v) :: kvs, r5)
              | none => none
            | '\x7d' :: r4 => some ([(k, v)], r4)
            | _ => none
        | _ => none
    | _ => none

end

/-- Python `json.loads(s)` on the modelled fragment: `none` is a raised
`json.JSONDecodeError`. -/
def pyJsonLoads (s : String) : Option Value :=
  match jsonParseVal (s.length + 1) s.toList with
  | some (v, rest) => if (jsonSkipWs rest).isEmpty then some v else none
  | none => none

mutual

/-- Python `json.dumps(value)`: `none` models the `TypeError` raised for
non-serializable values (datetime-like values, numpy arrays).  String
escaping is outside the fragment.  `json.dumps` renders NaN as `NaN`. -/
def pyJsonDumps : Value → Option String
  | .null => some "null"
  | .bool true => some "true"
  | .bool false => some "false"
  | .int n => some (toString n)
  | .float q => some (floatRepr q)
  | .nan => some "NaN"
  | .str s => some ("\"" ++ s ++ "\"")
  | .timestamp _ => none
  | .npArray _ => none
  | .list vs =>
    match pyJsonDumpsList vs with
    | some parts => some ("[" ++ String.intercalate ", " parts ++ "]")
    | none => none
  | .dict kvs =>
    match pyJsonDumpsDict kvs with
    | some parts => some ("\x7b" ++ String.intercalate ", " parts ++ "\x7d")
    | none => none

def pyJsonDumpsList : List Value → Option (List String)
  | [] => some []
  | v :: vs =>
    match pyJsonDumps v, pyJsonDumpsList vs with
    | some s, some ss => some (s :: ss)
    | _, _ => none

def pyJsonDumpsDict : List (String × Value) → Option (List String)
  | [] => some []
  | (k, v) :: kvs =>
    match pyJsonDumps v, pyJsonDumpsDict kvs with
    | some s, some ss => some (("\"" ++ k ++ "\": " ++ s) :: ss)
    | _, _ => none

end

/-! ## importer/utils.py: convert_value -/

mutual

/-- `convert_value` from importer/utils.py, branch for branch: `None`
passes through; datetime-like values become their ISO string; numpy arrays
are flattened by `tolist()` (no recursion, as in the source); other
non-string iterables recurse element-wise; dicts recurse dropping
`None`-valued entries; remaining scalars pass through.  The bytes and
set/tuple branches of the source concern values outside the modelled
universe. -/
def convert_value : Value → Value
  | .null => .null
  | .timestamp iso => .str iso
  | .npArray vs => .list vs
  | .list vs => .list (convertValueList vs)
  | .dict kvs => .dict (convertValueDict kvs)
  | .bool b => .bool b
  | .int n => .int n
  | .float q => .float q
  | .nan => .nan
  | .str s => .str s

def convertValueList : List Value → List Value
  | [] => []
  | v :: vs => convert_value v :: convertValueList vs

def convertValueDict : List (String × Value) → List (String × Value)
  | [] => []
  | (k, v) :: kvs =>
    if isNullV v then convertValueDict kvs
    else (k, convert_value v) :: convertValueDict kvs

end

/-! ## Entity type registry (importer/configs/) -/

/-- Target kind of a numeric field (`int` / `float` in the config tables). -/
inductive NumKind where
  | int
  | float
deriving DecidableEq

/-- The numeric coercion named by a config entry. -/
def coerceNum : NumKind → Value → Option Value
  | .int, v => pyIntCoerce v
  | .float, v => pyFloatCoerce v

/-- One entry of the entity type registry (importer/configs/*.py).  The
`relations` tables are omitted: no importer code path uses them. -/
structure EntityTypeConfig where
  typeName : String
  filePattern : String
  required_fields : List String
  optional_fields : List String
  list_fields : List String
  numeric_fields : List (String × NumKind)
  date_fields : List String
  json_fields : List String
  text_fields : List String
  post_import : Option String

/-- `DATA_TYPE_FIELDS` of configs/validation_rules.py (required half). -/
def dataTypeRequiredFields (data_type : String) : List String :=
  if data_type = "document" then ["id", "title", "text"]
  else if data_type = "text_unit" then ["id", "text"]
  else if data_type = "entity" then ["id", "title", "type", "description"]
  else if data_type = "relationship" then ["id", "source", "target"]
  else if data_type = "community" then ["id", "community", "level", "title"]
  else if data_type = "community_report" then ["id", "community", "full_content_json"]
  else []

/-- `DATA_TYPE_FIELDS` of configs/validation_rules.py (optional half). -/
def dataTypeOptionalFields (data_type : String) : List String :=
  if data_type = "document" then
    ["human_readable_id", "creation_date", "metadata", "text_unit_ids"]
  else if data_type = "text_unit" then
    ["human_readable_id", "n_tokens", "document_ids", "entity_ids",
     "relationship_ids", "covariate_ids"]
  else if data_type = "entity" then
    ["human_readable_id", "frequency", "degree", "x", "y", "text_unit_ids"]
  else if data_type = "relationship" then
    ["human_readable_id", "description", "weight", "combined_degree",
     "text_unit_ids", "type"]
  else if data_type = "community" then
    ["human_readable_id", "parent", "size", "period", "children", "entity_ids",
     "relationship_ids", "text_unit_ids", "name", "members"]
  else if data_type = "community_report" then
    ["human_readable_id", "summary", "title", "findings", "rating",
     "explanation", "create_time", "period", "level", "entity_ids",
     "text_unit_ids", "data", "created_at"]
  else []

/-- `DOCUMENT_CONFIG` (configs/document_config.py), field lists synced with
the central table as configs/init does. -/
def documentConfig : EntityTypeConfig where
  typeName := "Document"
  filePattern := "*documents*.parquet"
  required_fields := dataTypeRequiredFields "document"
  optional_fields := dataTypeOptionalFields "document"
  list_fields := ["text_unit_ids"]
  numeric_fields := []
  date_fields := ["creation_date"]
  json_fields := ["metadata"]
  text_fields := ["title", "text"]
  post_import := none

/-- `TEXT_UNIT_CONFIG` (configs/text_unit_config.py). -/
def textUnitConfig : EntityTypeConfig where
  typeName := "TextUnit"
  filePattern := "*text_units*.parquet"
  required_fields := dataTypeRequiredFields "text_unit"
  optional_fields := dataTypeOptionalFields "text_unit"
  list_fields := ["document_ids", "entity_ids", "relationship_ids", "covariate_ids"]
  numeric_fields := [("n_tokens", .int)]
  date_fields := []
  json_fields := []
  text_fields := []
  post_import := none

/-- `ENTITY_CONFIG` (configs/entity_config.py). -/
def entityConfig : EntityTypeConfig where
  typeName := "Entity"
  filePattern := "*entities*.parquet"
  required_fields := dataTypeRequiredFields "entity"
  optional_fields := dataTypeOptionalFields "entity"
  list_fields := ["text_unit_ids"]
  numeric_fields := [("frequency", .int), ("degree", .int), ("x", .float), ("y", .float)]
  date_fields := []
  json_fields := []
  text_fields := ["title", "description", "type"]
  post_import := none

/-- `RELATIONSHIP_CONFIG` (configs/relationship_config.py). -/
def relationshipConfig : EntityTypeConfig where
  typeName := "Relationship"
  filePattern := "*relationships*.parquet"
  required_fields := dataTypeRequiredFields "relationship"
  optional_fields := dataTypeOptionalFields "relationship"
  list_fields := ["text_unit_ids"]
  numeric_fields := [("weight", .float), ("combined_degree", .int)]
  date_fields := []
  json_fields := []
  text_fields := ["description"]
  post_import := some "setup_entity_relations"

/-- `COMMUNITY_CONFIG` (configs/community_config.py). -/
def communityConfig : EntityTypeConfig where
  typeName := "Community"
  filePattern := "*communities*.parquet"
  required_fields := dataTypeRequiredFields "community"
  optional_fields := dataTypeOptionalFields "community"
  list_fields := ["children", "entity_ids", "relationship_ids", "text_unit_ids"]
  numeric_fields := [("community", .int), ("level", .int), ("size", .int), ("parent", .int)]
  date_fields := ["period"]
  json_fields := []
  text_fields := []
  post_import := some "setup_hierarchy"

/-- `COMMUNITY_REPORT_CONFIG` (configs/community_report_config.py). -/
def communityReportConfig : EntityTypeConfig where
  typeName := "CommunityReport"
  filePattern := "*community_reports*.parquet"
  required_fields := dataTypeRequiredFields "community_report"
  optional_fields := dataTypeOptionalFields "community_report"
  list_fields := ["entity_ids", "text_unit_ids"]
  numeric_fields := [("rating", .int), ("level", .int)]
  date_fields := ["period", "create_time"]
  json_fields := ["full_content_json", "findings"]
  text_fields := ["title", "summary", "explanation", "report_content"]
  post_import := none

/-- `CONFIGS` of configs/init: the registry keyed by data type. -/
def CONFIGS (data_type : String) : Option EntityTypeConfig :=
  if data_type = "text_unit" then some textUnitConfig
  else if data_type = "document" then some documentConfig
  else if data_type = "entity" then some entityConfig
  else if data_type = "relationship" then some relationshipConfig
  else if data_type = "community" then some communityConfig
  else if data_type = "community_report" then some communityReportConfig
  else none

/-- `IMPORT_CONFIGS.get(data_type, dict()).get(type)`: the store type tag
configured for a data type. -/
def configTypeName (data_type : String) : Option String :=
  (CONFIGS data_type).map (·.typeName)

/-- `IMPORT_ORDER` of configs/init. -/
def IMPORT_ORDER : List String :=
  ["text_unit", "document", "entity", "relationship", "community", "community_report"]

/-! ## Validation rules (importer/configs/validation_rules.py) -/

/-- A layered validation error (`ValidationError` of importer/validation.py):
layer `file`/`business`/`storage` plus a short code.  Human-readable
messages carry no semantics and are not modelled. -/
structure VError where
  layer : String
  code : String
deriving DecidableEq

/-- The configured id-shape rule of a storage layer entry. -/
inductive IdFormat where
  | uuid
  | int
  | hash
deriving DecidableEq

/-- `VALIDATION_RULES[dt]["file_layer"]["supported_formats"]` with the
`["csv", "parquet"]` default used by `validate_file_format`. -/
def supportedFormats (data_type : String) : List String :=
  if data_type = "community_report" then ["csv", "parquet", "json"]
  else ["csv", "parquet"]

/-- `VALIDATION_RULES[dt]["file_layer"]["required_columns"]`: every type
points at the central required-field list; unknown types yield the empty
default. -/
def requiredColumnsFile (data_type : String) : List String :=
  dataTypeRequiredFields data_type

/-- `VALIDATION_RULES[dt]["business_layer"]["required_fields"]`. -/
def businessRequiredFields (data_type : String) : List String :=
  dataTypeRequiredFields data_type

/-- The extra keyed numeric rules of the business layer
(`min_content_length`, `max_text_length`, `min_members`). -/
def businessNumRule (data_type key : String) : Option Int :=
  if data_type = "document" && key = "min_content_length" then some 1
  else if data_type = "text_unit" && key = "max_text_length" then some 10000
  else if data_type = "community" && key = "min_members" then some 1
  else none

/-- `VALIDATION_RULES[dt]["business_layer"]["valid_types"]`: commented out
for every type in the source table. -/
def businessValidTypes (_data_type : String) : List String :=
  []

/-- `VALIDATION_RULES[dt]["storage_layer"]["id_format"]`: hash for
document/text_unit, uuid for entity/community/community_report, and no
rule for relationship (or an unknown type). -/
def idFormatRule (data_type : String) : Option IdFormat :=
  if data_type = "document" || data_type = "text_unit" then some .hash
  else if data_type = "entity" || data_type = "community"
      || data_type = "community_report" then some .uuid
  else none

/-- `VALIDATION_RULES[dt]["storage_layer"]["composite_unique"]`: only
relationship declares one.  (The `unique_constraints` entries are never
read by any code path and are not modelled.) -/
def compositeUniqueFields (data_type : String) : List String :=
  if data_type = "relationship" then ["source", "target"] else []

/-! ## DataFrame model and file/business validators -/

/-- A loaded pandas DataFrame: the column list plus one record per row
(every row carries every column, missing cells as NaN/None). -/
structure DataFrame where
  columns : List String
  rows : List Record

/-- `FileValidator.validate_columns`: required columns from the file-layer
rules must all be present, else `FileValidationError(MISSING_COLUMNS)`. -/
def validate_columns (df : DataFrame) (data_type : String) : Except VError Unit :=
  let required := requiredColumnsFile data_type
  if required.isEmpty then .ok ()
  else if (required.filter (fun c => !df.columns.contains c)).isEmpty then .ok ()
  else .error ⟨"file", "MISSING_COLUMNS"⟩

/-- `BusinessValidator.validate_required_fields` (dict variant, the one the
converters call): raises `BusinessValidationError(MISSING_FIELDS)` when a
configured required field is absent from the record. -/
def validate_required_fields (data : Record) (data_type : String) : Except VError Unit :=
  let required := businessRequiredFields data_type
  if required.isEmpty then .ok ()
  else if (required.filter (fun f => !hasField data f)).isEmpty then .ok ()
  else .error ⟨"business", "MISSING_FIELDS"⟩

/-- Membership of a Python value in a list of strings (the
`value not in valid_types` test). -/
def valueInStrList (v : Value) (ts : List String) : Bool :=
  match v with
  | .str s => ts.contains s
  | _ => false

/-- `BusinessValidator.validate_field_value` for the three rule names the
converters invoke (`min_length`, `max_length`, `valid_values`); the keyed
rule must exist and be truthy, exactly as `rules.get(...)` gates it.  The
`min_value`/`max_value` branches are never invoked by any converter and
are not modelled. -/
def validate_field_value (data : Record) (field rule_name data_type : String) :
    Except VError Unit :=
  if !hasField data field then .ok ()
  else
    let value := getField data field
    if rule_name = "min_length" then
      match businessNumRule data_type ("min_" ++ field ++ "_length") with
      | some n =>
        if n ≠ 0 then
          if ((pyStr value).length : Int) < n then .error ⟨"business", "MIN_LENGTH"⟩
          else .ok ()
        else .ok ()
      | none => .ok ()
    else if rule_name = "max_length" then
      match businessNumRule data_type ("max_" ++ field ++ "_length") with
      | some n =>
        if n ≠ 0 then
          if ((pyStr value).length : Int) > n then .error ⟨"business", "MAX_LENGTH"⟩
          else .ok ()
        else .ok ()
      | none => .ok ()
    else if rule_name = "valid_values" then
      match businessValidTypes data_type with
      | [] => .ok ()
      | ts =>
        if field = "type" then
          if valueInStrList value ts then .ok () else .error ⟨"business", "INVALID_TYPE"⟩
        else .ok ()
    else .ok ()

/-- The per-field loop of `BaseConverter.validate_converted_data`:
min/max length for every field, plus enum validity when the field is
`type`. -/
def validate_fields_loop (data_type : String) (record : Record) :
    List (String × Value) → Except VError Unit
  | [] => .ok ()
  | (f, _) :: rest => do
    let _ ← validate_field_value record f "min_length" data_type
    let _ ← validate_field_value record f "max_length" data_type
    if f = "type" then
      let _ ← validate_field_value record f "valid_values" data_type
    validate_fields_loop data_type record rest

/-- Record loop of `BaseConverter.validate_converted_data`: only the first
five records are sampled (`if i >= 5: break`). -/
def validateConvertedLoop (data_type : String) : Nat → List Record → Except VError Unit
  | _, [] => .ok ()
  | i, r :: rest =>
    if 5 ≤ i then .ok ()
    else do
      let _ ← validate_required_fields r data_type
      let _ ← validate_fields_loop data_type r r
      validateConvertedLoop data_type (i + 1) rest

/-- `BaseConverter.validate_converted_data`. -/
def validate_converted_data (data_type : String) (recs : List Record) :
    Except VError Unit :=
  validateConvertedLoop data_type 0 recs

/-- `BaseConverter.post_process`: business-validate the converted batch
(first five records) and return it unchanged. -/
def base_post_process (data_type : String) (recs : List Record) :
    Except VError (List Record) :=
  match validate_converted_data data_type recs with
  | .ok _ => .ok recs
  | .error e => .error e

/-! ## Converters (importer/base_converter.py and converters/) -/

/-- A raised Python error during conversion: either a layered
`ValidationError` or a plain exception (`ValueError` from a failed frame
validation, `TypeError` from `json.dumps`). -/
inductive ConvErr where
  | validation (e : VError)
  | pyError
deriving DecidableEq

/-- `is_valid_field` inside `BaseConverter.process_fields`: the column is
present, not `None`, and not a float NaN. -/
def is_valid_field (row : Record) (field : String) : Bool :=
  hasField row field && !isNullV (getField row field) && !isNanV (getField row field)

/-- `_is_valid_value` of the concrete converters: rejects `None`, scalar
NaN, empty iterables, and all-NA numpy arrays. -/
def is_valid_value : Value → Bool
  | .null => false
  | .nan => false
  | .list vs => !vs.isEmpty
  | .npArray vs => !vs.isEmpty && !(vs.all isNanV)
  | _ => true

/-- The basic-field pass of `BaseConverter.process_fields`: copy a
present/non-null field from the row. -/
def process_basic_step (row : Record) (res : Record) (field : String) : Record :=
  if is_valid_field row field then setField res field (getField row field) else res

/-- The numeric pass of `BaseConverter.process_fields`: overwrite with the
coerced value when coercion succeeds; a failure is suppressed, leaving the
earlier copy untouched. -/
def process_numeric_step (row : Record) (res : Record) (fk : String × NumKind) : Record :=
  if is_valid_field row fk.1 then
    match coerceNum fk.2 (getField row fk.1) with
    | some v => setField res fk.1 v
    | none => res
  else res

/-- `BaseConverter.process_fields`: start from the `type` discriminator,
copy every present/non-null required and optional field, then run the
numeric coercion pass. -/
def process_fields (config : EntityTypeConfig) (row : Record) : Record :=
  let result : Record := [("type", .str config.typeName)]
  let all_fields := config.required_fields ++ config.optional_fields
  let result := all_fields.foldl (process_basic_step row) result
  config.numeric_fields.foldl (process_numeric_step row) result

/-- `self.type_name.lower()`: the key every `BaseConverter` method uses
to look up validation rules.  For `TextUnit` and `CommunityReport` this
yields `textunit`/`communityreport`, which are NOT keys of the central
tables (`text_unit`/`community_report` are), so those lookups fall back
to the empty defaults. -/
def type_key (config : EntityTypeConfig) : String :=
  String.mk (config.typeName.toList.map Char.toLower)

/-- `BaseConverter.validate`: every field of
`get_data_type_fields(self.type_name.lower())["required_fields"]` must
appear among the frame columns — an empty lookup (as for
`communityreport`) validates vacuously. -/
def base_validate (config : EntityTypeConfig) (df : DataFrame) : Bool :=
  (dataTypeRequiredFields (type_key config)).all (df.columns.contains ·)

/-- `TextUnitConverter.validate`, which overrides the base and loops over
`self.config["required_fields"]` directly, so it really checks the
configured columns. -/
def text_unit_validate (df : DataFrame) : Bool :=
  textUnitConfig.required_fields.all (df.columns.contains ·)

/-- The text-field loop shared by the entity/relationship/community
converters: stringify each valid configured text field. -/
def text_fields_loop (fields : List String) (row : Record) (cr : Record) : Record :=
  fields.foldl (fun cr field =>
    if hasField row field && is_valid_value (getField row field) then
      setField cr field (.str (pyStr (getField row field)))
    else cr) cr

/-- Date normalization of `CommunityConverter.convert` (and the
community-report converter): ISO strings re-emit canonically, parse
failure passes the raw string through, timestamps re-emit, other values
pass through. -/
def community_date_step (v : Value) : Value :=
  match v with
  | .str s =>
    match pyFromIso s with
    | some c => .str c
    | none => .str s
  | .timestamp iso => .str iso
  | v => v

/-- Date normalization of `DocumentConverter.convert`: the first space is
replaced by `T` before parsing; on success the canonical form is emitted;
on failure a string containing a space but no `T` has its first space
replaced by `T`, any other value passes through raw. -/
def document_date_step (v : Value) : Value :=
  match v with
  | .str s =>
    match pyFromIso (replaceFirstSpaceTStr s) with
    | some c => .str c
    | none =>
      if s.toList.contains ' ' && !(s.toList.contains 'T') then
        .str (replaceFirstSpaceTStr s)
      else .str s
  | .timestamp iso => .str iso
  | v => v

/-- JSON normalization of `DocumentConverter.convert`: a string is parsed
(the parsed object replaces it) with the raw string kept on decode
failure; other values pass through. -/
def document_json_step (v : Value) : Value :=
  match v with
  | .str s =>
    match pyJsonLoads s with
    | some parsed => parsed
    | none => .str s
  | v => v

/-- A generic date/json/text field loop: apply a step to each valid
configured field of the row. -/
def field_step_loop (fields : List String) (step : Value → Value) (row : Record)
    (cr : Record) : Record :=
  fields.foldl (fun cr field =>
    if hasField row field && is_valid_value (getField row field) then
      setField cr field (step (getField row field))
    else cr) cr

/-- `TextUnitConverter.convert` row body: base field processing only. -/
def text_unit_conv_row (row : Record) : Record :=
  process_fields textUnitConfig row

/-- `EntityConverter.convert` row body: base processing plus text-field
stringification. -/
def entity_conv_row (row : Record) : Record :=
  text_fields_loop entityConfig.text_fields row (process_fields entityConfig row)

/-- `RelationshipConverter.convert` row body. -/
def relationship_conv_row (row : Record) : Record :=
  text_fields_loop relationshipConfig.text_fields row (process_fields relationshipConfig row)

/-- `CommunityConverter.convert` row body: base processing, text fields
(none configured), then date normalization. -/
def community_conv_row (row : Record) : Record :=
  field_step_loop communityConfig.date_fields community_date_step row
    (text_fields_loop communityConfig.text_fields row (process_fields communityConfig row))

/-- `DocumentConverter.convert` row body: base processing, JSON fields,
then date fields. -/
def document_conv_row (row : Record) : Record :=
  field_step_loop documentConfig.date_fields document_date_step row
    (field_step_loop documentConfig.json_fields document_json_step row
      (process_fields documentConfig row))

/-- Text normalization of `CommunityReportConverter.convert`: iterables
other than strings are joined with `"; "` over the repr of their non-None
items (a dict iterates over its keys); other values are stringified. -/
def community_report_text_step (v : Value) : Value :=
  match v with
  | .list vs => .str (String.intercalate "; " ((vs.filter (fun x => !isNullV x)).map pyStr))
  | .npArray vs => .str (String.intercalate "; " ((vs.filter (fun x => !isNullV x)).map pyStr))
  | .dict kvs => .str (String.intercalate "; " (kvs.map (·.1)))
  | v => .str (pyStr v)

/-- JSON normalization of `CommunityReportConverter.convert`: a valid JSON
string is kept verbatim, an invalid one is re-serialized with
`json.dumps`, a non-string is serialized directly; `none` models the
uncaught `TypeError` of `json.dumps` on non-serializable values. -/
def community_report_json_step (v : Value) : Option Value :=
  match v with
  | .str s =>
    match pyJsonLoads s with
    | some _ => some (.str s)
    | none => (pyJsonDumps (.str s)).map .str
  | v => (pyJsonDumps v).map .str

/-- The fallible field loop of the community-report converter (its JSON
pass can raise). -/
def field_step_loopE (fields : List String) (step : Value → Option Value) (row : Record)
    (cr : Record) : Option Record :=
  fields.foldlM (fun cr field =>
    if hasField row field && is_valid_value (getField row field) then
      (step (getField row field)).map (setField cr field)
    else some cr) cr

/-- `CommunityReportConverter.convert` row body: base processing, the
joined text pass, date normalization (its missing else-branch coincides
with the identity since every date field is also an optional field), then
the fallible JSON pass. -/
def community_report_conv_row (row : Record) : Option Record :=
  field_step_loopE communityReportConfig.json_fields community_report_json_step row
    (field_step_loop communityReportConfig.date_fields community_date_step row
      (field_step_loop communityReportConfig.text_fields community_report_text_step row
        (process_fields communityReportConfig row)))

/-- `setup_entity_relations` of the relationship converter: the identity
(its body only returns the input). -/
def setup_entity_relations (recs : List Record) : List Record :=
  recs

/-- `setup_hierarchy` of the community converter: the identity. -/
def setup_hierarchy (recs : List Record) : List Record :=
  recs

/-- `RelationshipConverter.post_process`: runs the configured post-import
hook and nothing else — in particular no business validation. -/
def relationship_post_process (recs : List Record) : List Record :=
  if relationshipConfig.post_import = some "setup_entity_relations" then
    setup_entity_relations recs
  else recs

/-- `CommunityConverter.post_process`: likewise hook-only. -/
def community_post_process (recs : List Record) : List Record :=
  if communityConfig.post_import = some "setup_hierarchy" then
    setup_hierarchy recs
  else recs

/-- `TextUnitConverter.convert`: its own overridden `validate` is real,
but `post_process` validates under the key `textunit`, which has no rules
entry, so the per-record validation is vacuous. -/
def text_unit_convert (df : DataFrame) : Except ConvErr (List Record) :=
  if !text_unit_validate df then .error .pyError
  else
    match base_post_process (type_key textUnitConfig) (df.rows.map text_unit_conv_row) with
    | .ok recs => .ok recs
    | .error e => .error (.validation e)

/-- `EntityConverter.convert` (`entity` is a rules key, so its base
post-process validation is real). -/
def entity_convert (df : DataFrame) : Except ConvErr (List Record) :=
  if !base_validate entityConfig df then .error .pyError
  else
    match base_post_process (type_key entityConfig) (df.rows.map entity_conv_row) with
    | .ok recs => .ok recs
    | .error e => .error (.validation e)

/-- `DocumentConverter.convert` (`document` is a rules key, so its base
post-process validation is real). -/
def document_convert (df : DataFrame) : Except ConvErr (List Record) :=
  if !base_validate documentConfig df then .error .pyError
  else
    match base_post_process (type_key documentConfig) (df.rows.map document_conv_row) with
    | .ok recs => .ok recs
    | .error e => .error (.validation e)

/-- `RelationshipConverter.convert`: note the hook-only post-process. -/
def relationship_convert (df : DataFrame) : Except ConvErr (List Record) :=
  if !base_validate relationshipConfig df then .error .pyError
  else .ok (relationship_post_process (df.rows.map relationship_conv_row))

/-- `CommunityConverter.convert`: likewise hook-only post-process. -/
def community_convert (df : DataFrame) : Except ConvErr (List Record) :=
  if !base_validate communityConfig df then .error .pyError
  else .ok (community_post_process (df.rows.map community_conv_row))

/-- `CommunityReportConverter.convert`: the JSON pass can raise, which
aborts the row loop as an exception would.  Both its frame validation and
its post-process validation key the tables by `communityreport`, which
has no entry, so both are vacuous. -/
def community_report_convert (df : DataFrame) : Except ConvErr (List Record) :=
  if !base_validate communityReportConfig df then .error .pyError
  else
    match df.rows.mapM community_report_conv_row with
    | none => .error .pyError
    | some rows =>
      match base_post_process (type_key communityReportConfig) rows with
      | .ok recs => .ok recs
      | .error e => .error (.validation e)

/-- `ImportManager.convert_data`: dispatch through the `CONVERTERS`
table. -/
def convert_data (data_type : String) (df : DataFrame) : Except ConvErr (List Record) :=
  if data_type = "text_unit" then text_unit_convert df
  else if data_type = "document" then document_convert df
  else if data_type = "entity" then entity_convert df
  else if data_type = "relationship" then relationship_convert df
  else if data_type = "community" then community_convert df
  else if data_type = "community_report" then community_report_convert df
  else .error (.validation ⟨"file", "CONVERTER"⟩)

/-! ## Import manager (importer/import_manager.py) -/

/-- A discovered data file: its path, whether it exists on disk, and the
table its content loads to (the pandas readers are external collaborators;
their output is the table). -/
structure SrcFile where
  path : String
  present : Bool
  table : DataFrame

/-- A per-file failure logged by `ImportManager.import_data_type`: a caught
`ValidationError`, or any other exception caught by its generic handler. -/
inductive ImpError where
  | validation (e : VError)
  | generic
deriving DecidableEq

/-- `path.endswith(suffix)` via suffix comparison on character lists. -/
def strEndsWith (s suffix : String) : Bool :=
  suffix.toList.isSuffixOf s.toList

/-- `path.split(".")[-1].lower()`: the characters after the last dot (the
whole name when there is no dot), lowercased. -/
def lastExtLower (path : String) : String :=
  String.mk (((path.toList.reverse.takeWhile (fun c => c != '.')).reverse).map Char.toLower)

/-- `ImportManager.load_dataframe`: existence check, format check against
the file-layer rules, the parquet/csv reader dispatch (anything else is a
second `FORMAT` failure), then the required-column check. -/
def load_dataframe (f : SrcFile) (data_type : String) : Except VError DataFrame :=
  if !f.present then .error ⟨"file", "NOT_FOUND"⟩
  else if !(supportedFormats data_type).contains (lastExtLower f.path) then
    .error ⟨"file", "FORMAT"⟩
  else if strEndsWith f.path ".parquet" || strEndsWith f.path ".csv" then
    match validate_columns f.table data_type with
    | .ok _ => .ok f.table
    | .error e => .error e
  else .error ⟨"file", "FORMAT"⟩

/-- First non-None value of a column (the sample used by
`_preprocess_arrays`). -/
def firstNonNull : List Value → Option Value
  | [] => none
  | v :: vs => if isNullV v then firstNonNull vs else some v

/-- `x.tolist() if isinstance(x, np.ndarray) else x`. -/
def npToList : Value → Value
  | .npArray vs => .list vs
  | v => v

/-- `ImportManager._preprocess_arrays`: columns whose first non-None value
is a numpy array are converted cell-wise to plain lists. -/
def preprocess_arrays (df : DataFrame) : DataFrame :=
  let arrayCols := df.columns.filter (fun c =>
    match firstNonNull (df.rows.map (fun r => getField r c)) with
    | some (.npArray _) => true
    | _ => false)
  ⟨df.columns, df.rows.map (fun r => r.map (fun kv =>
    if arrayCols.contains kv.1 then (kv.1, npToList kv.2) else kv))⟩

/-- One iteration of the per-file loop of
`ImportManager.import_data_type`: a load failure or a conversion failure
is logged and dropped, successful records extend the aggregate, and the
loop always continues. -/
def import_file_step (data_type : String) (acc : List Record × List ImpError)
    (f : SrcFile) : List Record × List ImpError :=
  match load_dataframe f data_type with
  | .error e => (acc.1, acc.2 ++ [.validation e])
  | .ok df =>
    match convert_data data_type (preprocess_arrays df) with
    | .ok recs => (acc.1 ++ recs, acc.2)
    | .error (.validation e) => (acc.1, acc.2 ++ [.validation e])
    | .error .pyError => (acc.1, acc.2 ++ [.generic])

/-- `ImportManager.import_data_type` over an already-discovered file list
(globbing is an external collaborator): unknown types raise
`FileValidationError(TYPE)`, an empty file list yields no records, and the
per-file loop isolates failures.  The second component collects the
errors the source logs. -/
def import_data_type (data_type : String) (files : List SrcFile) :
    Except VError (List Record × List ImpError) :=
  if (CONFIGS data_type).isNone then .error ⟨"file", "TYPE"⟩
  else if files.isEmpty then .ok ([], [])
  else .ok (files.foldl (import_file_step data_type) ([], []))

/-! ## Store model and storage validators -/

/-- One node of the target store. -/
structure StoreNode where
  uid : Nat
  fields : Record

/-- Modelled from the spec: the target store transport (section 6) exposes
transactions with query, set/delete mutations, commit and discard.  The
store itself is the committed node set; a set-object mutation without a
`uid` key creates a fresh node (the insert-exclusivity property of
section 8 fixes this semantics). -/
structure Store where
  nodes : List StoreNode
  nextUid : Nat

/-- The initially empty store. -/
def emptyStore : Store :=
  ⟨[], 0⟩

/-- Whether a node carries a string predicate equal to the literal the
query interpolates (`eq(field, "...")`). -/
def nodeFieldEqStr (n : StoreNode) (field v : String) : Bool :=
  match lookupField n.fields field with
  | some (.str s) => s = v
  | _ => false

/-- The query of `validate_unique_constraint`:
`exists(func: eq(id, "{id}"))` over the whole store. -/
def query_id_exists (st : Store) (idv : String) : Bool :=
  st.nodes.any (fun n => nodeFieldEqStr n "id" idv)

/-- The query of `validate_composite_unique`:
`func: type(dt) @filter(AND of eq(field, value))`; Dgraph type names are
case-sensitive, so the filter compares the lowercase data-type key
interpolated by the source. -/
def query_type_filter (st : Store) (data_type : String)
    (conds : List (String × String)) : Bool :=
  st.nodes.any (fun n =>
    nodeFieldEqStr n "dgraph.type" data_type &&
    conds.all (fun c => nodeFieldEqStr n c.1 c.2))

/-- `StorageValidator.validate_unique_constraint`: raises
`StorageValidationError(UNIQUE)` when a node with this id exists. -/
def validate_unique_constraint (st : Store) (id_value : String)
    (_data_type : String) : Except VError Unit :=
  if query_id_exists st id_value then .error ⟨"storage", "UNIQUE"⟩ else .ok ()

/-- `StorageValidator.validate_composite_unique`: no composite rule or a
missing composite field passes; otherwise the non-None composite values
are interpolated into a type-filtered existence query and a match raises
`StorageValidationError(COMPOSITE_UNIQUE)`. -/
def validate_composite_unique (st : Store) (data : Record) (data_type : String) :
    Except VError Unit :=
  match compositeUniqueFields data_type with
  | [] => .ok ()
  | fields =>
    if !fields.all (fun f => hasField data f) then .ok ()
    else
      let conds := (fields.filter (fun f => hasField data f && !isNullV (getField data f))).map
        (fun f => (f, pyStr (getField data f)))
      if conds.isEmpty then .ok ()
      else if query_type_filter st data_type conds then
        .error ⟨"storage", "COMPOSITE_UNIQUE"⟩
      else .ok ()

/-- The per-format check inside `StorageValidator.validate_id_format`. -/
def id_format_check : IdFormat → String → Except VError Unit
  | .uuid, idv =>
    if uuidAccepts idv then .ok () else .error ⟨"storage", "ID_FORMAT"⟩
  | .int, idv =>
    if intStrAccepts idv then .ok () else .error ⟨"storage", "ID_FORMAT"⟩
  | .hash, idv =>
    if hashAccepts idv then .ok () else .error ⟨"storage", "ID_FORMAT"⟩

/-- `StorageValidator.validate_id_format`: a type with no configured rule
always passes. -/
def validate_id_format (id_value data_type : String) : Except VError Unit :=
  match idFormatRule data_type with
  | none => .ok ()
  | some fmt => id_format_check fmt id_value

/-! ## Technical formatter (convert_to_dgraph_format) -/

/-- `value is None or (isinstance(value, str) and not value.strip())`. -/
def isBlankStr : Value → Bool
  | .str s => (trimChars s.toList).isEmpty
  | _ => false

/-- The field loop body of `convert_to_dgraph_format`: skip the semantic
`type` field, drop `None` and blank-string values, coerce the rest
through `convert_value`.  The `exclude_fields` list of the source is
empty. -/
def format_field_step (res : Record) (kv : String × Value) : Record :=
  if kv.1 = "type" then res
  else if isNullV kv.2 || isBlankStr kv.2 then res
  else setField res kv.1 (convert_value kv.2)

/-- The `dgraph.type` tag emission of `convert_to_dgraph_format`. -/
def format_type_tag (item : Record) (data_type : Option String) : Record :=
  match data_type with
  | some dt =>
    if dt ≠ "" && !hasField item "type" then
      match configTypeName dt with
      | some tn => [("dgraph.type", .str tn)]
      | none => []
    else if hasField item "type" then [("dgraph.type", getField item "type")]
    else []
  | none =>
    if hasField item "type" then [("dgraph.type", getField item "type")] else []

/-- `convert_to_dgraph_format` on a non-None record: emit the
`dgraph.type` tag (from the registry when the record has no `type` field,
from the record otherwise), then run the field loop. -/
def convert_to_dgraph_format_core (item : Record) (data_type : Option String) : Record :=
  item.foldl format_field_step (format_type_tag item data_type)

/-- `convert_to_dgraph_format` including its None guard. -/
def convert_to_dgraph_format : Option Record → Option String → Option Record
  | none, _ => none
  | some item, dt => some (convert_to_dgraph_format_core item dt)

/-! ## Batch importer (DGraphImporter._batch_import) -/

/-- The composite-uniqueness tail of the per-record loop body of
`_batch_import`: a composite match under `skip` clears the sequentially
reassigned `should_create` flag (the last check evaluated wins); under
`upsert`/`insert` the flag is left as the preceding check set it.
Surviving records are formatted. -/
def composite_step (st : Store) (conflict_strategy data_type : String)
    (item : Record) (should_create : Bool) : Option Record :=
  let sc :=
    match validate_composite_unique st item data_type with
    | .error _ => if conflict_strategy = "skip" then false else should_create
    | .ok _ => should_create
  if sc then some (convert_to_dgraph_format_core item (some data_type)) else none

/-- The per-record loop body of `DGraphImporter._batch_import`: a record
with a present, non-None id is stringified and id-format-checked (failure
skips the record entirely); unless the policy is `insert` the single-id
uniqueness probe runs, and an existing id clears `should_create` only
under `skip`; records without a usable id are always marked for creation;
then the composite step decides.  `none` means no mutation is appended. -/
def batch_import_record (st : Store) (conflict_strategy data_type : String)
    (item : Record) : Option Record :=
  match lookupField item "id" with
  | some idv =>
    if isNullV idv then composite_step st conflict_strategy data_type item true
    else
      let idStr := pyStr idv
      let item := setField item "id" (.str idStr)
      match validate_id_format idStr data_type with
      | .error _ => none
      | .ok _ =>
        let should_create :=
          if conflict_strategy ≠ "insert" then
            match validate_unique_constraint st idStr data_type with
            | .ok _ => true
            | .error _ => if conflict_strategy = "skip" then false else true
          else true
        composite_step st conflict_strategy data_type item should_create
  | none => composite_step st conflict_strategy data_type item true

/-- Modelled from the spec: committing set mutations appends one fresh
node per mutation object. -/
def commit_set_mutations (st : Store) (muts : List Record) : Store :=
  muts.foldl (fun s m => ⟨s.nodes ++ [⟨s.nextUid, m⟩], s.nextUid + 1⟩) st

/-- `execute_mutation` of importer/utils.py: an empty mutation list is a
no-op; otherwise one mutate+commit call — on an injected transport failure
the transaction is discarded and the batch reports zero successes plus one
error string, else every mutation commits and is counted. -/
def execute_mutation (st : Store) (muts : List Record) (mutateFails : Bool) :
    Store × Nat × List String :=
  if muts.isEmpty then (st, 0, [])
  else if mutateFails then (st, 0, ["mutation failed"])
  else (commit_set_mutations st muts, muts.length, [])

/-- Fuel-indexed worker for `toBatches`; each step consumes at least one
element, so fuel equal to the input length suffices. -/
def toBatchesAux {α : Type} : Nat → List α → Nat → List (List α)
  | 0, _, _ => []
  | fuel + 1, l, bs =>
    if bs = 0 || l.isEmpty then []
    else l.take bs :: toBatchesAux fuel (l.drop bs) bs

/-- `data_list[i:i+batch_size]` slicing of `_batch_import` (a zero batch
size raises in Python and yields no batches here). -/
def toBatches {α : Type} (l : List α) (bs : Nat) : List (List α) :=
  toBatchesAux l.length l bs

/-- The batch loop of `_batch_import`: queries of a batch read the store
as committed before the batch, one mutate+commit per non-empty mutation
set, and a failed batch leaves the store unchanged while later batches
still run.  (The source re-commits the already-finished transaction after
`execute_mutation`; pydgraph raises, the handler discards the finished
transaction, and neither the store nor the tally is affected, so the
redundant call has no model effect.)  Returns the final store, the
imported tally and the recorded error strings. -/
def batch_import_loop (conflict_strategy data_type : String)
    (mutateFailsAt : Nat → Bool) :
    Store → Nat → Nat → List (List Record) → Store × Nat × List String
  | st, imported, _, [] => (st, imported, [])
  | st, imported, i, batch :: rest =>
    let muts := batch.filterMap (batch_import_record st conflict_strategy data_type)
    let step := execute_mutation st muts (mutateFailsAt i)
    let tail := batch_import_loop conflict_strategy data_type mutateFailsAt
      step.1 (imported + step.2.1) (i + 1) rest
    (tail.1, tail.2.1, step.2.2 ++ tail.2.2)

/-- `DGraphImporter._batch_import`: chunk the record list and run the
batch loop from a starting store.  The transport failure oracle says
which mutate calls (by batch index) raise. -/
def batch_import (st : Store) (conflict_strategy data_type : String)
    (batch_size : Nat) (data : List Record) (mutateFailsAt : Nat → Bool) :
    Store × Nat × List String :=
  batch_import_loop conflict_strategy data_type mutateFailsAt st 0 0
    (toBatches data batch_size)

/-! ## Concrete fixtures for the claims -/

/-- An entity record with a hexadecimal (UUID-shaped) id, used in the
2,500-record batching scenario. -/
def entityBatchRecord : Record :=
  [("id", .str "0123456789abcdef0123456789abcdef")]

/-- The wire mutation the formatter produces for `entityBatchRecord`. -/
def entityBatchMutation : Record :=
  [("dgraph.type", .str "Entity"), ("id", .str "0123456789abcdef0123456789abcdef")]

/-- A relationship frame whose only row has a null required `target`. -/
def dfRelNullTarget : DataFrame :=
  ⟨["id", "source", "target"],
   [[("id", .str "r1"), ("source", .str "A"), ("target", .null)]]⟩

/-- What the relationship converter returns for `dfRelNullTarget`: the
record lacks the required `target` field. -/
def recRelNullTarget : Record :=
  [("type", .str "Relationship"), ("id", .str "r1"), ("source", .str "A")]

/-- Text-unit frame whose row has a null required `text`. -/
def dfTextUnitNull : DataFrame :=
  ⟨["id", "text"], [[("id", .str "aaaaaaaaaaaaaaaaaaaaaaaaaaaaaaaa"), ("text", .null)]]⟩

def recTextUnitNull : Record :=
  [("type", .str "TextUnit"), ("id", .str "aaaaaaaaaaaaaaaaaaaaaaaaaaaaaaaa")]

/-- Entity frame whose row has a null required `description`. -/
def dfEntityNull : DataFrame :=
  ⟨["id", "title", "type", "description"],
   [[("id", .str "0123456789abcdef0123456789abcdef"), ("title", .str "t"),
     ("type", .str "PERSON"), ("description", .null)]]⟩

def recEntityNull : Record :=
  [("type", .str "PERSON"), ("id", .str "0123456789abcdef0123456789abcdef"),
   ("title", .str "t")]

/-- Document frame whose row has a null required `text`. -/
def dfDocumentNull : DataFrame :=
  ⟨["id", "title", "text"],
   [[("id", .str "aaaaaaaaaaaaaaaaaaaaaaaaaaaaaaaa"), ("title", .str "t"),
     ("text", .null)]]⟩

def recDocumentNull : Record :=
  [("type", .str "Document"), ("id", .str "aaaaaaaaaaaaaaaaaaaaaaaaaaaaaaaa"),
   ("title", .str "t")]

/-- Community-report frame whose row has a null required `community`. -/
def dfReportNull : DataFrame :=
  ⟨["id", "community", "full_content_json"],
   [[("id", .str "0123456789abcdef0123456789abcdef"), ("community", .null),
     ("full_content_json", .str "\x7b\x7d")]]⟩

def recReportNull : Record :=
  [("type", .str "CommunityReport"), ("id", .str "0123456789abcdef0123456789abcdef"),
   ("full_content_json", .str "\x7b\x7d")]

/-- A relationship row with a non-numeric string in the declared numeric
field `weight`. -/
def rowWeightAbc : Record :=
  [("id", .str "r1"), ("source", .str "A"), ("target", .str "B"),
   ("weight", .str "abc")]

/-- A store holding one externally created node that matches the
composite-unique query for the pair (A, B). -/
def storeRelAB : Store :=
  ⟨[⟨0, [("dgraph.type", .str "relationship"), ("source", .str "A"),
        ("target", .str "B")]⟩], 1⟩

/-- A relationship record whose id is fresh while its (source, target)
pair already exists in `storeRelAB`. -/
def itemFreshIdAB : Record :=
  [("id", .str "r9"), ("source", .str "A"), ("target", .str "B")]

/-- A record used to exercise the formatter: a type field, a None field, a
whitespace-only field, and a normal field. -/
def itemFormatter : Record :=
  [("type", .str "Entity"), ("a", .null), ("b", .str " "), ("c", .str "v")]

/-- A well-formed relationship file. -/
def fileRelGood1 : SrcFile :=
  ⟨"a.parquet", true,
   ⟨["id", "source", "target"],
    [[("id", .str "r1"), ("source", .str "A"), ("target", .str "B")]]⟩⟩

/-- A relationship file missing the required `target` column. -/
def fileRelBad : SrcFile :=
  ⟨"b.parquet", true, ⟨["id", "source"], [[("id", .str "r2"), ("source", .str "A")]]⟩⟩

/-- A second well-formed relationship file. -/
def fileRelGood2 : SrcFile :=
  ⟨"c.parquet", true,
   ⟨["id", "source", "target"],
    [[("id", .str "r3"), ("source", .str "C"), ("target", .str "D")]]⟩⟩

/-- The converted record of `fileRelGood1`. -/
def recRelGood1 : Record :=
  [("type", .str "Relationship"), ("id", .str "r1"), ("source", .str "A"),
   ("target", .str "B")]

/-- The converted record of `fileRelGood2`. -/
def recRelGood2 : Record :=
  [("type", .str "Relationship"), ("id", .str "r3"), ("source", .str "C"),
   ("target", .str "D")]

/-- A document frame whose `creation_date` does not parse as a date. -/
def dfDateBad : DataFrame :=
  ⟨["id", "title", "text", "creation_date"],
   [[("id", .str "aaaaaaaaaaaaaaaaaaaaaaaaaaaaaaaa"), ("title", .str "t"),
     ("text", .str "x"), ("creation_date", .str "not a date")]]⟩

/-- What the document converter returns for `dfDateBad`: the unparseable
date had its first space replaced by `T` instead of passing through. -/
def recDateBad : Record :=
  [("type", .str "Document"), ("id", .str "aaaaaaaaaaaaaaaaaaaaaaaaaaaaaaaa"),
   ("title", .str "t"), ("text", .str "x"), ("creation_date", .str "notTa date")]

/-- A record without an `id` key. -/
def itemNoId : Record :=
  [("source", .str "A")]

/-! ## Support lemmas -/

theorem lookupField_setField (r : Record) (k : String) (v : Value) (k2 : String) :
    lookupField (setField r k v) k2 = if k = k2 then some v else lookupField r k2 := by
  induction r with
  | nil =>
    by_cases h : k = k2 <;> simp [setField, lookupField, h]
  | cons kv r ih =>
    by_cases h1 : kv.1 = k
    · by_cases h2 : k = k2 <;> simp [setField, lookupField, h1, h2]
    · by_cases h2 : kv.1 = k2
      · have hne : ¬k = k2 := fun he => h1 (he ▸ h2)
        have hne2 : ¬k2 = k := fun he => hne he.symm
        simp [setField, lookupField, h1, h2, hne, hne2]
      · simp [setField, lookupField, h1, h2, ih]

theorem lookupField_eq_none_of_not_key (r : Record) (k : String)
    (h : ∀ kv ∈ r, kv.1 ≠ k) : lookupField r k = none := by
  induction r with
  | nil => rfl
  | cons kv r ih =>
    have h1 : kv.1 ≠ k := h kv (List.mem_cons_self _ _)
    simp only [lookupField, if_neg h1]
    exact ih (fun x hx => h x (List.mem_cons_of_mem _ hx))

theorem not_key_of_hasField_false (r : Record) (k : String)
    (h : hasField r k = false) : ∀ kv ∈ r, kv.1 ≠ k := by
  induction r with
  | nil => intro kv hkv; cases hkv
  | cons kv0 r ih =>
    intro kv hkv
    unfold hasField at h
    by_cases h1 : kv0.1 = k
    · simp [lookupField, h1] at h
    · rcases List.mem_cons.mp hkv with he | hm
      · subst he; exact h1
      · refine ih ?_ kv hm
        unfold hasField
        simp only [lookupField, if_neg h1] at h
        exact h

theorem lookupField_unique_of_nodup (r : Record) (k : String) (v : Value)
    (hnd : (r.map Prod.fst).Nodup) (hl : lookupField r k = some v) :
    ∀ kv ∈ r, kv.1 = k → kv.2 = v := by
  induction r with
  | nil => intro kv hkv; cases hkv
  | cons kv0 r ih =>
    intro kv hkv hk
    rw [List.map_cons, List.nodup_cons] at hnd
    by_cases h1 : kv0.1 = k
    · simp only [lookupField, if_pos h1, Option.some.injEq] at hl
      rcases List.mem_cons.mp hkv with he | hm
      · rw [he, hl]
      · exfalso
        apply hnd.1
        rw [h1, ← hk]
        exact List.mem_map.mpr ⟨kv, hm, rfl⟩
    · simp only [lookupField, if_neg h1] at hl
      rcases List.mem_cons.mp hkv with he | hm
      · exact absurd (he ▸ hk) h1
      · exact ih hnd.2 hl kv hm hk

theorem foldl_format_lookup (item : List (String × Value)) (init : Record) (f : String)
    (h : ∀ kv ∈ item, kv.1 = f →
      kv.1 = "type" ∨ (isNullV kv.2 || isBlankStr kv.2) = true) :
    lookupField (item.foldl format_field_step init) f = lookupField init f := by
  induction item generalizing init with
  | nil => rfl
  | cons kv rest ih =>
    rw [List.foldl_cons, ih _ (fun x hx hf => h x (List.mem_cons_of_mem _ hx) hf)]
    unfold format_field_step
    by_cases h1 : kv.1 = "type"
    · simp [h1]
    · by_cases h2 : (isNullV kv.2 || isBlankStr kv.2) = true
      · simp [h1, h2]
      · have hne : kv.1 ≠ f := by
          intro he
          rcases h kv (List.mem_cons_self _ _) he with h3 | h3
          · exact h1 h3
          · exact h2 h3
        simp [h1, h2, lookupField_setField, hne]

theorem foldl_basic_lookup (fields : List String) (row : Record) (init : Record)
    (f : String) (hvalid : is_valid_field row f = true)
    (hstart : f ∈ fields ∨ lookupField init f = some (getField row f)) :
    lookupField (fields.foldl (process_basic_step row) init) f
      = some (getField row f) := by
  induction fields generalizing init with
  | nil =>
    rcases hstart with h | h
    · cases h
    · exact h
  | cons g rest ih =>
    rw [List.foldl_cons]
    apply ih
    by_cases hg : g = f
    · right
      subst hg
      unfold process_basic_step
      rw [if_pos hvalid, lookupField_setField, if_pos rfl]
    · rcases hstart with hmem | hlook
      · rcases List.mem_cons.mp hmem with he | hm
        · exact absurd he.symm hg
        · left; exact hm
      · right
        unfold process_basic_step
        by_cases hv : is_valid_field row g = true
        · rw [if_pos hv, lookupField_setField, if_neg hg]
          exact hlook
        · rw [if_neg hv]
          exact hlook

theorem foldl_numeric_preserve (nfs : List (String × NumKind)) (row : Record)
    (init : Record) (f : String)
    (h : ∀ kind, (f, kind) ∈ nfs → coerceNum kind (getField row f) = none) :
    lookupField (nfs.foldl (process_numeric_step row) init) f = lookupField init f := by
  induction nfs generalizing init with
  | nil => rfl
  | cons gk rest ih =>
    rw [List.foldl_cons, ih _ (fun kind hk => h kind (List.mem_cons_of_mem _ hk))]
    unfold process_numeric_step
    by_cases hg : gk.1 = f
    · have hfail : coerceNum gk.2 (getField row gk.1) = none := by
        rw [hg]
        exact h gk.2 (by rw [← hg]; exact List.mem_cons_self _ _)
      rw [hfail]
      by_cases hv : is_valid_field row gk.1 = true
      · rw [if_pos hv]
      · rw [if_neg hv]
    · by_cases hv : is_valid_field row gk.1 = true
      · rw [if_pos hv]
        cases hc : coerceNum gk.2 (getField row gk.1) with
        | none => rfl
        | some v => rw [lookupField_setField, if_neg hg]
      · rw [if_neg hv]

theorem isEmpty_false_of_mem {α : Type} {l : List α} {a : α} (h : a ∈ l) :
    l.isEmpty = false := by
  cases l with
  | nil => cases h
  | cons b t => rfl

theorem validate_required_fields_error (rec : Record) (data_type f : String)
    (hf : f ∈ businessRequiredFields data_type) (hmiss : hasField rec f = false) :
    validate_required_fields rec data_type = .error ⟨"business", "MISSING_FIELDS"⟩ := by
  unfold validate_required_fields
  have h1 : (businessRequiredFields data_type).isEmpty = false := isEmpty_false_of_mem hf
  have h2 : f ∈ (businessRequiredFields data_type).filter (fun g => !hasField rec g) :=
    List.mem_filter.mpr ⟨hf, by rw [hmiss]; rfl⟩
  have h3 : ((businessRequiredFields data_type).filter
      (fun g => !hasField rec g)).isEmpty = false := isEmpty_false_of_mem h2
  simp [h1, h3]

theorem base_post_process_missing_first (data_type : String) (rec : Record)
    (rest : List Record) (f : String)
    (hf : f ∈ businessRequiredFields data_type) (hmiss : hasField rec f = false) :
    base_post_process data_type (rec :: rest)
      = .error ⟨"business", "MISSING_FIELDS"⟩ := by
  unfold base_post_process validate_converted_data validateConvertedLoop
  rw [if_neg (by omega : ¬(5 : Nat) ≤ 0)]
  rw [validate_required_fields_error rec data_type f hf hmiss]
  rfl

/-- Under policy `insert` the per-record loop body touches no store state:
the id passes the uuid check and the entity type has no composite rule, so
every store yields the same formatted mutation. -/
theorem batch_record_insert (st : Store) :
    batch_import_record st "insert" "entity" entityBatchRecord
      = some entityBatchMutation := rfl

theorem filterMap_replicate_some {α β : Type} (g : α → Option β) (a : α) (b : β)
    (h : g a = some b) (n : Nat) :
    (List.replicate n a).filterMap g = List.replicate n b := by
  induction n with
  | zero => rfl
  | succ n ih => simp [List.replicate_succ, List.filterMap_cons, h, ih]

theorem replicate_isEmpty_false {α : Type} (n : Nat) (hn : n ≠ 0) (a : α) :
    (List.replicate n a).isEmpty = false := by
  cases n with
  | zero => exact absurd rfl hn
  | succ n => rfl

theorem toBatchesAux_nil {α : Type} (fuel bs : Nat) :
    toBatchesAux fuel ([] : List α) bs = [] := by
  cases fuel with
  | zero => rfl
  | succ fuel => simp [toBatchesAux]

theorem toBatchesAux_fuel_irrel {α : Type} :
    ∀ (fuel1 fuel2 : Nat) (l : List α) (bs : Nat), l.length ≤ fuel1 →
      l.length ≤ fuel2 → toBatchesAux fuel1 l bs = toBatchesAux fuel2 l bs := by
  intro fuel1
  induction fuel1 with
  | zero =>
    intro fuel2 l bs hl1 _
    have : l = [] := List.eq_nil_of_length_eq_zero (Nat.le_zero.mp hl1)
    subst this
    rw [toBatchesAux_nil, toBatchesAux_nil]
  | succ fuel ih =>
    intro fuel2 l bs hl1 hl2
    cases l with
    | nil => rw [toBatchesAux_nil, toBatchesAux_nil]
    | cons c rest =>
      cases fuel2 with
      | zero => simp at hl2
      | succ fuel2 =>
        by_cases hbs : bs = 0
        · simp [toBatchesAux, hbs]
        · have hlen : ((c :: rest).drop bs).length ≤ fuel := by
            rw [List.length_drop]
            have := Nat.one_le_iff_ne_zero.mpr hbs
            simp only [List.length_cons] at hl1 ⊢
            omega
          have hlen2 : ((c :: rest).drop bs).length ≤ fuel2 := by
            rw [List.length_drop]
            have := Nat.one_le_iff_ne_zero.mpr hbs
            simp only [List.length_cons] at hl2 ⊢
            omega
          simp only [toBatchesAux, hbs]
          rw [ih fuel2 _ bs hlen hlen2]

theorem toBatches_nil {α : Type} (bs : Nat) : toBatches ([] : List α) bs = [] := by
  rw [toBatches, toBatchesAux_nil]

theorem toBatches_cons {α : Type} (l : List α) (bs : Nat) (h1 : bs ≠ 0)
    (h2 : l.isEmpty = false) :
    toBatches l bs = l.take bs :: toBatches (l.drop bs) bs := by
  cases l with
  | nil => simp at h2
  | cons c rest =>
    show toBatchesAux (c :: rest).length (c :: rest) bs = _
    simp only [List.length_cons, toBatchesAux, h1, if_false]
    rw [toBatchesAux_fuel_irrel rest.length ((c :: rest).drop bs).length _ bs]
    · simp [toBatches]
    · rw [List.length_drop]
      have := Nat.one_le_iff_ne_zero.mpr h1
      simp only [List.length_cons]
      omega
    · exact Nat.le_refl _

theorem toBatches_c2 :
    toBatches (List.replicate 2500 entityBatchRecord) 1000 =
      [List.replicate 1000 entityBatchRecord, List.replicate 1000 entityBatchRecord,
       List.replicate 500 entityBatchRecord] := by
  rw [toBatches_cons _ _ (by norm_num) (replicate_isEmpty_false 2500 (by norm_num) _)]
  rw [List.take_replicate, List.drop_replicate]
  norm_num
  rw [toBatches_cons _ _ (by norm_num) (replicate_isEmpty_false 1500 (by norm_num) _)]
  rw [List.take_replicate, List.drop_replicate]
  norm_num
  rw [toBatches_cons _ _ (by norm_num) (replicate_isEmpty_false 500 (by norm_num) _)]
  rw [List.take_replicate, List.drop_replicate]
  norm_num
  exact toBatches_nil _

theorem batch_loop_step_ok (fails : Nat → Bool) (st : Store) (imported i n : Nat)
    (hn : n ≠ 0) (hf : fails i = false) (rest : List (List Record)) :
    batch_import_loop "insert" "entity" fails st imported i
        (List.replicate n entityBatchRecord :: rest)
      = ((batch_import_loop "insert" "entity" fails
            (commit_set_mutations st (List.replicate n entityBatchMutation))
            (imported + n) (i + 1) rest).1,
         (batch_import_loop "insert" "entity" fails
            (commit_set_mutations st (List.replicate n entityBatchMutation))
            (imported + n) (i + 1) rest).2.1,
         (batch_import_loop "insert" "entity" fails
            (commit_set_mutations st (List.replicate n entityBatchMutation))
            (imported + n) (i + 1) rest).2.2) := by
  rw [batch_import_loop]
  rw [filterMap_replicate_some _ _ _ (batch_record_insert st)]
  simp [execute_mutation, replicate_isEmpty_false n hn, hf]

theorem batch_loop_step_fail (fails : Nat → Bool) (st : Store) (imported i n : Nat)
    (hn : n ≠ 0) (hf : fails i = true) (rest : List (List Record)) :
    batch_import_loop "insert" "entity" fails st imported i
        (List.replicate n entityBatchRecord :: rest)
      = ((batch_import_loop "insert" "entity" fails st imported (i + 1) rest).1,
         (batch_import_loop "insert" "entity" fails st imported (i + 1) rest).2.1,
         "mutation failed" ::
           (batch_import_loop "insert" "entity" fails st imported (i + 1) rest).2.2) := by
  rw [batch_import_loop]
  rw [filterMap_replicate_some _ _ _ (batch_record_insert st)]
  simp [execute_mutation, replicate_isEmpty_false n hn, hf]

/-! ## Claim theorems -/

/-- C1: the claim says importing the same record set twice under policy
`upsert` equals importing it once, because the batch importer deletes then
recreates existing records.  The code contradicts this: `_batch_import`
never issues a delete (the delete-then-recreate `handle_conflict` helper
is never called), so re-importing the single record with id `x` leaves the
store with two nodes instead of one — upsert behaves exactly like insert. -/
theorem C1_upsert_reimport_duplicates :
    (batch_import emptyStore "upsert" "relationship" 1000
        [[("id", Value.str "x")]] (fun _ => false)).2.1 = 1 ∧
    (batch_import emptyStore "upsert" "relationship" 1000
        [[("id", Value.str "x")]] (fun _ => false)).1.nodes.length = 1 ∧
    (batch_import
        (batch_import emptyStore "upsert" "relationship" 1000
          [[("id", Value.str "x")]] (fun _ => false)).1
        "upsert" "relationship" 1000
        [[("id", Value.str "x")]] (fun _ => false)).2.1 = 1 ∧
    (batch_import
        (batch_import emptyStore "upsert" "relationship" 1000
          [[("id", Value.str "x")]] (fun _ => false)).1
        "upsert" "relationship" 1000
        [[("id", Value.str "x")]] (fun _ => false)).1.nodes.length = 2 :=
  ⟨rfl, rfl, rfl, rfl⟩

set_option maxRecDepth 8000 in
/-- C2: 2,500 entity records at batch size 1000 form exactly the three
batches 1000/1000/500; when the mutate call of the second batch raises,
that batch contributes zero successes and exactly one recorded error, the
remaining batches still run, and the final success count is 1500. -/
theorem C2_batch_failure_isolation :
    ((toBatches (List.replicate 2500 entityBatchRecord) 1000).map List.length
      = [1000, 1000, 500]) ∧
    (batch_import emptyStore "insert" "entity" 1000
        (List.replicate 2500 entityBatchRecord) (fun i => i == 1)).2.1 = 1500 ∧
    (batch_import emptyStore "insert" "entity" 1000
        (List.replicate 2500 entityBatchRecord) (fun i => i == 1)).2.2
      = ["mutation failed"] := by
  refine ⟨?_, ?_, ?_⟩
  · rw [toBatches_c2]
    rfl
  · rw [batch_import, toBatches_c2]
    rw [batch_loop_step_ok _ _ _ _ _ (by norm_num) rfl]
    rw [batch_loop_step_fail _ _ _ _ _ (by norm_num) rfl]
    rw [batch_loop_step_ok _ _ _ _ _ (by norm_num) rfl]
    rfl
  · rw [batch_import, toBatches_c2]
    rw [batch_loop_step_ok _ _ _ _ _ (by norm_num) rfl]
    rw [batch_loop_step_fail _ _ _ _ _ (by norm_num) rfl]
    rw [batch_loop_step_ok _ _ _ _ _ (by norm_num) rfl]
    rfl

/-- C3 counterexample: the claim says every converter raises
`BusinessValidationError(MISSING_FIELDS)` for any converted record
missing a required field.  The relationship converter returns such a
record instead: its overridden `post_process` performs no validation, so
a row whose required `target` is null converts to a record without
`target` and is returned successfully. -/
theorem C3_relationship_returns_incomplete_record :
    relationship_convert dfRelNullTarget = .ok [recRelNullTarget] ∧
    hasField recRelNullTarget "target" = false ∧
    "target" ∈ relationshipConfig.required_fields :=
  ⟨rfl, rfl, by decide⟩

theorem validate_field_value_vacuous (key : String)
    (hnum : ∀ k, businessNumRule key k = none) (rec : Record) (f rule : String) :
    validate_field_value rec f rule key = .ok () := by
  unfold validate_field_value
  simp [hnum, businessValidTypes]

theorem validate_fields_loop_vacuous (key : String)
    (hnum : ∀ k, businessNumRule key k = none) (rec : Record)
    (l : List (String × Value)) : validate_fields_loop key rec l = .ok () := by
  induction l with
  | nil => rfl
  | cons kv rest ih =>
    obtain ⟨f, v⟩ := kv
    unfold validate_fields_loop
    simp [validate_field_value_vacuous key hnum rec, ih]
    by_cases ht : f = "type" <;> simp [ht] <;> rfl

theorem validateConvertedLoop_vacuous (key : String)
    (hreq : businessRequiredFields key = [])
    (hnum : ∀ k, businessNumRule key k = none) :
    ∀ (i : Nat) (recs : List Record), validateConvertedLoop key i recs = .ok () := by
  intro i recs
  induction recs generalizing i with
  | nil => rfl
  | cons r rest ih =>
    unfold validateConvertedLoop
    by_cases hi : 5 ≤ i
    · simp [hi]
    · have hr : validate_required_fields r key = .ok () := by
        unfold validate_required_fields
        rw [hreq]
        rfl
      simp [hi, hr, validate_fields_loop_vacuous key hnum r, ih]
      rfl

/-- `validate_converted_data` under a key with no rules entry (as the
lowered tags `textunit` and `communityreport` are) accepts every record
list. -/
theorem base_post_process_vacuous (key : String)
    (hreq : businessRequiredFields key = [])
    (hnum : ∀ k, businessNumRule key k = none) (recs : List Record) :
    base_post_process key recs = .ok recs := by
  unfold base_post_process validate_converted_data
  rw [validateConvertedLoop_vacuous key hreq hnum]

/-- C3 amended: only the document and entity converters — whose lowered
store tags coincide with the validation-rules keys — raise
`BusinessValidationError(MISSING_FIELDS)` when a sampled (first-five)
converted record is missing a required field, stated here for the first
record.  The text_unit and community_report converters key their
post-process validation by `textunit`/`communityreport`, which have no
rules entry, so they convert successfully and return records lacking
required fields; the relationship and community converters perform no
per-record validation at all. -/
theorem C3_missing_required_field_raises :
    (∀ (df : DataFrame) (rec : Record) (rest : List Record) (f : String),
      base_validate documentConfig df = true →
      df.rows.map document_conv_row = rec :: rest →
      f ∈ businessRequiredFields "document" → hasField rec f = false →
      document_convert df = .error (.validation ⟨"business", "MISSING_FIELDS"⟩)) ∧
    (∀ (df : DataFrame) (rec : Record) (rest : List Record) (f : String),
      base_validate entityConfig df = true →
      df.rows.map entity_conv_row = rec :: rest →
      f ∈ businessRequiredFields "entity" → hasField rec f = false →
      entity_convert df = .error (.validation ⟨"business", "MISSING_FIELDS"⟩)) ∧
    (∀ df : DataFrame, text_unit_validate df = true →
      text_unit_convert df = .ok (df.rows.map text_unit_conv_row)) ∧
    (∀ (df : DataFrame) (rows : List Record),
      df.rows.mapM community_report_conv_row = some rows →
      community_report_convert df = .ok rows) := by
  refine ⟨?_, ?_, ?_, ?_⟩
  · intro df rec rest f hv hrows hf hmiss
    unfold document_convert
    rw [hv, hrows, show type_key documentConfig = "document" from rfl]
    simp [base_post_process_missing_first "document" rec rest f hf hmiss]
  · intro df rec rest f hv hrows hf hmiss
    unfold entity_convert
    rw [hv, hrows, show type_key entityConfig = "entity" from rfl]
    simp [base_post_process_missing_first "entity" rec rest f hf hmiss]
  · intro df hv
    unfold text_unit_convert
    rw [hv, show type_key textUnitConfig = "textunit" from rfl,
        base_post_process_vacuous "textunit" rfl (fun _ => rfl) _]
    rfl
  · intro df rows hrows
    unfold community_report_convert
    have hbv : base_validate communityReportConfig df = true := rfl
    rw [hbv, hrows, show type_key communityReportConfig = "communityreport" from rfl]
    simp [base_post_process_vacuous "communityreport" rfl (fun _ => rfl)]

/-- Witness for the amended C3: the document and entity converters raise
`MISSING_FIELDS` on concrete frames whose first row misses a required
value, while the text_unit and community_report converters return the
incomplete records successfully. -/
theorem C3_missing_required_field_raises_witness :
    document_convert dfDocumentNull
      = .error (.validation ⟨"business", "MISSING_FIELDS"⟩) ∧
    entity_convert dfEntityNull
      = .error (.validation ⟨"business", "MISSING_FIELDS"⟩) ∧
    text_unit_convert dfTextUnitNull = .ok [recTextUnitNull] ∧
    community_report_convert dfReportNull = .ok [recReportNull] :=
  ⟨C3_missing_required_field_raises.1 dfDocumentNull recDocumentNull [] "text"
      rfl rfl (by decide) rfl,
   C3_missing_required_field_raises.2.1 dfEntityNull recEntityNull [] "description"
      rfl rfl (by decide) rfl,
   C3_missing_required_field_raises.2.2.1 dfTextUnitNull rfl,
   C3_missing_required_field_raises.2.2.2 dfReportNull [recReportNull] rfl⟩

/-- C4 counterexample: the claim says a failed numeric coercion leaves the
record without that field.  For the relationship row whose `weight` is the
unparseable string `abc`, the coercion fails, yet the converted record
still contains `weight` with the raw string: the basic field pass had
already copied it, and the suppressed coercion failure does not remove
it. -/
theorem C4_failed_coercion_keeps_raw_value :
    pyFloatCoerce (.str "abc") = none ∧
    ("weight", NumKind.float) ∈ relationshipConfig.numeric_fields ∧
    lookupField (process_fields relationshipConfig rowWeightAbc) "weight"
      = some (.str "abc") :=
  ⟨rfl, by decide, rfl⟩

/-- C4 amended: when every declared coercion for a numeric field fails on
the row value, conversion of the row does not abort and the field keeps
the raw value copied by the required/optional pass (every configured
numeric field of the registry is also a required or optional field, so the
field is never dropped). -/
theorem C4_failed_coercion_preserves_field :
    (∀ (config : EntityTypeConfig) (row : Record) (f : String),
      (∀ kind, (f, kind) ∈ config.numeric_fields →
        coerceNum kind (getField row f) = none) →
      is_valid_field row f = true →
      f ∈ config.required_fields ++ config.optional_fields →
      lookupField (process_fields config row) f = some (getField row f)) ∧
    (∀ dt ∈ IMPORT_ORDER,
      ((CONFIGS dt).map (fun cfg => cfg.numeric_fields.all
        (fun fk => (cfg.required_fields ++ cfg.optional_fields).contains fk.1))).getD
          false = true) := by
  constructor
  · intro config row f hfail hvalid hmem
    unfold process_fields
    rw [foldl_numeric_preserve _ _ _ _ hfail]
    exact foldl_basic_lookup _ _ _ _ hvalid (Or.inl hmem)
  · decide

/-- Witness for the amended C4: the concrete `abc` weight row keeps the
raw string. -/
theorem C4_failed_coercion_preserves_field_witness :
    lookupField (process_fields relationshipConfig rowWeightAbc) "weight"
      = some (.str "abc") :=
  C4_failed_coercion_preserves_field.1 relationshipConfig rowWeightAbc "weight"
    (by
      intro kind hk
      cases kind
      · exact absurd hk (by decide)
      · rfl)
    rfl (by decide)

/-- C5: in the per-record conflict resolution the sequentially reassigned
`should_create` flag makes the last check win: under `skip`, a
composite-unique match drops the record even though the preceding
single-id check had decided to create it, while under `upsert` and
`insert` a composite-unique match never drops the record. -/
theorem C5_last_check_wins (st : Store) (item : Record) (idv : String)
    (hid : lookupField item "id" = some (.str idv))
    (huniq : validate_unique_constraint st idv "relationship" = .ok ())
    (hcomp : validate_composite_unique st (setField item "id" (.str idv))
        "relationship" = .error ⟨"storage", "COMPOSITE_UNIQUE"⟩) :
    batch_import_record st "skip" "relationship" item = none ∧
    batch_import_record st "upsert" "relationship" item
      = some (convert_to_dgraph_format_core (setField item "id" (.str idv))
          (some "relationship")) ∧
    batch_import_record st "insert" "relationship" item
      = some (convert_to_dgraph_format_core (setField item "id" (.str idv))
          (some "relationship")) := by
  refine ⟨?_, ?_, ?_⟩
  · unfold batch_import_record
    rw [hid]
    show composite_step st "skip" "relationship" (setField item "id" (.str idv))
        (match validate_unique_constraint st idv "relationship" with
          | .ok _ => true
          | .error _ => false) = none
    rw [huniq]
    unfold composite_step
    rw [hcomp]
    rfl
  · unfold batch_import_record
    rw [hid]
    show composite_step st "upsert" "relationship" (setField item "id" (.str idv))
        (match validate_unique_constraint st idv "relationship" with
          | .ok _ => true
          | .error _ => true) = _
    cases validate_unique_constraint st idv "relationship" with
    | ok u =>
      unfold composite_step
      rw [hcomp]
      rfl
    | error e =>
      unfold composite_step
      rw [hcomp]
      rfl
  · unfold batch_import_record
    rw [hid]
    show composite_step st "insert" "relationship" (setField item "id" (.str idv))
        true = _
    unfold composite_step
    rw [hcomp]
    rfl

/-- Witness for C5: a store already holding an (A, B) relationship node
drops the fresh-id record under `skip` and keeps it under `upsert` and
`insert`. -/
theorem C5_last_check_wins_witness :
    batch_import_record storeRelAB "skip" "relationship" itemFreshIdAB = none ∧
    batch_import_record storeRelAB "upsert" "relationship" itemFreshIdAB
      = some (convert_to_dgraph_format_core
          (setField itemFreshIdAB "id" (.str "r9")) (some "relationship")) :=
  ⟨(C5_last_check_wins storeRelAB itemFreshIdAB "r9" rfl rfl rfl).1,
   (C5_last_check_wins storeRelAB itemFreshIdAB "r9" rfl rfl rfl).2.1⟩

theorem lookup_format_type_tag_ne (item : Record) (dt : Option String) (f : String)
    (hne : f ≠ "dgraph.type") : lookupField (format_type_tag item dt) f = none := by
  have hne2 : ¬("dgraph.type" = f) := fun h => hne h.symm
  unfold format_type_tag
  cases dt with
  | none =>
    by_cases h : hasField item "type" = true <;> simp [h, lookupField, hne2]
  | some dtv =>
    by_cases h1 : (dtv ≠ "" && !hasField item "type") = true
    · simp only [h1, if_true]
      cases configTypeName dtv with
      | none => rfl
      | some tn => simp [lookupField, hne2]
    · by_cases h2 : hasField item "type" = true
      · simp [h1, h2, lookupField, hne2]
      · have hdtv : dtv = "" := by
          by_contra hd
          apply h1
          simp [hd, h2]
        subst hdtv
        simp [h2, lookupField]

theorem lookup_format_type_tag_of_hasType (item : Record) (dt : Option String)
    (ht : hasField item "type" = true) :
    lookupField (format_type_tag item dt) "dgraph.type"
      = some (getField item "type") := by
  unfold format_type_tag
  cases dt with
  | none => simp [ht, lookupField]
  | some dtv => simp [ht, lookupField]

/-- C6: the technical formatter is pure and deterministic; it returns
`None` exactly for `None` input; the output never carries the semantic
`type` field (a `dgraph.type` tag carries the record type instead); and
every field whose value is `None` or an empty/whitespace-only string is
omitted from the output. -/
theorem C6_formatter_contract (item : Record) (dt : Option String)
    (hnd : (item.map Prod.fst).Nodup) :
    (convert_to_dgraph_format (some item) dt
      = convert_to_dgraph_format (some item) dt) ∧
    (convert_to_dgraph_format none dt = none) ∧
    ((convert_to_dgraph_format (some item) dt).isSome = true) ∧
    (lookupField (convert_to_dgraph_format_core item dt) "type" = none) ∧
    (hasField item "type" = true → hasField item "dgraph.type" = false →
      lookupField (convert_to_dgraph_format_core item dt) "dgraph.type"
        = some (getField item "type")) ∧
    (∀ (f : String) (v : Value), lookupField item f = some v →
      (isNullV v || isBlankStr v) = true → f ≠ "dgraph.type" →
      lookupField (convert_to_dgraph_format_core item dt) f = none) := by
  refine ⟨rfl, rfl, rfl, ?_, ?_, ?_⟩
  · unfold convert_to_dgraph_format_core
    rw [foldl_format_lookup _ _ _ (fun kv _ hf => Or.inl hf)]
    exact lookup_format_type_tag_ne item dt "type" (by decide)
  · intro ht hdg
    unfold convert_to_dgraph_format_core
    rw [foldl_format_lookup _ _ _ (fun kv hkv hf =>
      absurd hf (not_key_of_hasField_false item "dgraph.type" hdg kv hkv))]
    exact lookup_format_type_tag_of_hasType item dt ht
  · intro f v hlook hdrop hne
    unfold convert_to_dgraph_format_core
    rw [foldl_format_lookup _ _ _ (fun kv hkv hf => Or.inr (by
      rw [lookupField_unique_of_nodup item f v hnd hlook kv hkv hf]
      exact hdrop))]
    exact lookup_format_type_tag_ne item dt f hne

/-- Witness for C6 on a concrete record: the `type` field is dropped, the
tag keeps its value, and the None/blank fields are omitted. -/
theorem C6_formatter_contract_witness :
    lookupField (convert_to_dgraph_format_core itemFormatter (some "entity"))
      "dgraph.type" = some (.str "Entity") ∧
    lookupField (convert_to_dgraph_format_core itemFormatter (some "entity"))
      "type" = none ∧
    lookupField (convert_to_dgraph_format_core itemFormatter (some "entity"))
      "a" = none ∧
    lookupField (convert_to_dgraph_format_core itemFormatter (some "entity"))
      "b" = none :=
  ⟨(C6_formatter_contract itemFormatter (some "entity") (by decide)).2.2.2.2.1
      rfl rfl,
   (C6_formatter_contract itemFormatter (some "entity") (by decide)).2.2.2.1,
   (C6_formatter_contract itemFormatter (some "entity") (by decide)).2.2.2.2.2
      "a" .null rfl rfl (by decide),
   (C6_formatter_contract itemFormatter (some "entity") (by decide)).2.2.2.2.2
      "b" (.str " ") rfl rfl (by decide)⟩

/-- C7: given three files of one type where the second fails column
validation with `MISSING_COLUMNS`, the per-file loop logs exactly that
error for the second file, keeps going, and returns the aggregated
records of files one and three. -/
theorem C7_per_file_failure_isolation (data_type : String)
    (f1 f2 f3 : SrcFile) (df1 df3 : DataFrame) (r1 r3 : List Record)
    (hcfg : (CONFIGS data_type).isNone = false)
    (h1l : load_dataframe f1 data_type = .ok df1)
    (h1c : convert_data data_type (preprocess_arrays df1) = .ok r1)
    (h2 : load_dataframe f2 data_type = .error ⟨"file", "MISSING_COLUMNS"⟩)
    (h3l : load_dataframe f3 data_type = .ok df3)
    (h3c : convert_data data_type (preprocess_arrays df3) = .ok r3) :
    import_data_type data_type [f1, f2, f3]
      = .ok (r1 ++ r3, [.validation ⟨"file", "MISSING_COLUMNS"⟩]) := by
  unfold import_data_type
  rw [hcfg]
  show Except.ok
      ([f1, f2, f3].foldl (import_file_step data_type) ([], [])) = _
  rw [List.foldl_cons, List.foldl_cons, List.foldl_cons, List.foldl_nil]
  unfold import_file_step
  simp [h1l, h1c, h2, h3l, h3c]

/-- Witness for C7 with three concrete relationship files, the second of
which is missing the required `target` column. -/
theorem C7_per_file_failure_isolation_witness :
    load_dataframe fileRelBad "relationship"
      = .error ⟨"file", "MISSING_COLUMNS"⟩ ∧
    import_data_type "relationship" [fileRelGood1, fileRelBad, fileRelGood2]
      = .ok ([recRelGood1] ++ [recRelGood2],
          [.validation ⟨"file", "MISSING_COLUMNS"⟩]) :=
  ⟨rfl,
   C7_per_file_failure_isolation "relationship" fileRelGood1 fileRelBad
     fileRelGood2 fileRelGood1.table fileRelGood2.table [recRelGood1] [recRelGood2]
     rfl rfl rfl rfl rfl rfl⟩

/-- C8 counterexample: the claim says a date string that fails to parse
passes through unchanged.  In the document converter the unparseable
string `not a date` is re-emitted as `notTa date` — the fallback replaces
its first space with `T` instead of passing the raw value through. -/
theorem C8_document_date_fallback_rewrites :
    pyFromIso (replaceFirstSpaceTStr "not a date") = none ∧
    document_convert dfDateBad = .ok [recDateBad] ∧
    lookupField recDateBad "creation_date" = some (.str "notTa date") :=
  ⟨rfl, rfl, rfl⟩

/-- C8 amended: ISO strings re-emit canonically and timestamps re-emit in
ISO form in both date-normalizing converters; on parse failure the
community (and community-report) converter passes the raw value through
unchanged, while the document converter rewrites a failing string that
contains a space and no `T` by replacing its first space with `T` and
passes every other failing value through unchanged. -/
theorem C8_date_normalization (s iso : String) :
    (pyFromIso s = none → community_date_step (.str s) = .str s) ∧
    (∀ c, pyFromIso s = some c → community_date_step (.str s) = .str c) ∧
    (community_date_step (.timestamp iso) = .str iso) ∧
    (document_date_step (.timestamp iso) = .str iso) ∧
    (∀ c, pyFromIso (replaceFirstSpaceTStr s) = some c →
      document_date_step (.str s) = .str c) ∧
    (pyFromIso (replaceFirstSpaceTStr s) = none →
      document_date_step (.str s)
        = .str (if s.toList.contains ' ' && !(s.toList.contains 'T')
            then replaceFirstSpaceTStr s else s)) := by
  refine ⟨?_, ?_, rfl, rfl, ?_, ?_⟩
  · intro h
    show (match pyFromIso s with
        | some c => Value.str c
        | none => Value.str s) = Value.str s
    rw [h]
  · intro c h
    show (match pyFromIso s with
        | some c => Value.str c
        | none => Value.str s) = Value.str c
    rw [h]
  · intro c h
    show (match pyFromIso (replaceFirstSpaceTStr s) with
        | some c => Value.str c
        | none =>
          if s.toList.contains ' ' && !(s.toList.contains 'T') then
            Value.str (replaceFirstSpaceTStr s)
          else Value.str s) = Value.str c
    rw [h]
  · intro h
    show (match pyFromIso (replaceFirstSpaceTStr s) with
        | some c => Value.str c
        | none =>
          if s.toList.contains ' ' && !(s.toList.contains 'T') then
            Value.str (replaceFirstSpaceTStr s)
          else Value.str s) = _
    rw [h]
    by_cases hsp : (s.toList.contains ' ' && !(s.toList.contains 'T')) = true
    · rw [if_pos hsp, if_pos hsp]
    · rw [if_neg hsp, if_neg hsp]

/-- Witness for the amended C8: a valid ISO string re-emits canonically in
the community converter, and the failing `not a date` passes through raw
there while the document converter rewrites it. -/
theorem C8_date_normalization_witness :
    community_date_step (.str "not a date") = .str "not a date" ∧
    community_date_step (.str "2024-01-15") = .str "2024-01-15T00:00:00" ∧
    document_date_step (.str "not a date") = .str "notTa date" :=
  ⟨(C8_date_normalization "not a date" "").1 rfl,
   (C8_date_normalization "2024-01-15" "").2.1 "2024-01-15T00:00:00" rfl,
   (C8_date_normalization "not a date" "").2.2.2.2.2 rfl⟩

/-- C9: `validate_id_format` raises `StorageValidationError(ID_FORMAT)`
exactly when the configured id-shape rule rejects the value — UUID syntax
for the uuid-configured types (entity, community, community_report),
hexadecimal of length at least 32 for the hash-configured types
(document, text_unit), integer-parseable under an `int` rule — and the
relationship type, which configures no id rule, always passes. -/
theorem C9_id_format_rules (id_value : String) :
    validate_id_format id_value "relationship" = .ok () ∧
    validate_id_format id_value "entity"
      = (if uuidAccepts id_value then .ok ()
          else .error ⟨"storage", "ID_FORMAT"⟩) ∧
    validate_id_format id_value "community"
      = (if uuidAccepts id_value then .ok ()
          else .error ⟨"storage", "ID_FORMAT"⟩) ∧
    validate_id_format id_value "community_report"
      = (if uuidAccepts id_value then .ok ()
          else .error ⟨"storage", "ID_FORMAT"⟩) ∧
    validate_id_format id_value "document"
      = (if 32 ≤ id_value.length ∧ id_value.toList.all hexChar = true
          then .ok () else .error ⟨"storage", "ID_FORMAT"⟩) ∧
    validate_id_format id_value "text_unit"
      = (if 32 ≤ id_value.length ∧ id_value.toList.all hexChar = true
          then .ok () else .error ⟨"storage", "ID_FORMAT"⟩) ∧
    id_format_check .int id_value
      = (if intStrAccepts id_value then .ok ()
          else .error ⟨"storage", "ID_FORMAT"⟩) := by
  have hhash : ∀ dt : String, idFormatRule dt = some .hash →
      validate_id_format id_value dt
        = (if 32 ≤ id_value.length ∧ id_value.toList.all hexChar = true
            then .ok () else .error ⟨"storage", "ID_FORMAT"⟩) := by
    intro dt hdt
    unfold validate_id_format
    rw [hdt]
    show (if hashAccepts id_value then (Except.ok () : Except VError Unit)
        else Except.error ⟨"storage", "ID_FORMAT"⟩) = _
    have hiff : hashAccepts id_value = true ↔
        (32 ≤ id_value.length ∧ id_value.toList.all hexChar = true) := by
      simp [hashAccepts, Bool.and_eq_true, decide_eq_true_eq]
    exact if_congr hiff rfl rfl
  exact ⟨rfl, rfl, rfl, rfl, hhash "document" rfl, hhash "text_unit" rfl, rfl⟩

/-- C10: a record whose `id` key is absent or None bypasses the id-format
and single-id uniqueness checks and starts marked for creation; only a
composite-unique match under `skip` can still drop it, so under `insert`
and `upsert` it is always formatted and submitted. -/
theorem C10_missing_id_always_creates (st : Store)
    (conflict_strategy data_type : String) (item : Record)
    (hid : lookupField item "id" = none ∨ lookupField item "id" = some .null) :
    (batch_import_record st conflict_strategy data_type item
      = match validate_composite_unique st item data_type with
        | .error _ =>
          if conflict_strategy = "skip" then none
          else some (convert_to_dgraph_format_core item (some data_type))
        | .ok _ => some (convert_to_dgraph_format_core item (some data_type))) ∧
    (conflict_strategy = "insert" ∨ conflict_strategy = "upsert" →
      batch_import_record st conflict_strategy data_type item
        = some (convert_to_dgraph_format_core item (some data_type))) := by
  have hmain : batch_import_record st conflict_strategy data_type item
      = match validate_composite_unique st item data_type with
        | .error _ =>
          if conflict_strategy = "skip" then none
          else some (convert_to_dgraph_format_core item (some data_type))
        | .ok _ => some (convert_to_dgraph_format_core item (some data_type)) := by
    have hstep : composite_step st conflict_strategy data_type item true
        = match validate_composite_unique st item data_type with
          | .error _ =>
            if conflict_strategy = "skip" then none
            else some (convert_to_dgraph_format_core item (some data_type))
          | .ok _ => some (convert_to_dgraph_format_core item (some data_type)) := by
      unfold composite_step
      cases validate_composite_unique st item data_type with
      | ok u => rfl
      | error e =>
        by_cases hs : conflict_strategy = "skip"
        · rw [hs]
          rfl
        · simp [hs]
    rcases hid with h | h
    · unfold batch_import_record
      rw [h]
      exact hstep
    · unfold batch_import_record
      rw [h]
      exact hstep
  refine ⟨hmain, ?_⟩
  intro hs
  rw [hmain]
  have hns : conflict_strategy ≠ "skip" := by
    rcases hs with h | h <;> rw [h] <;> decide
  cases validate_composite_unique st item data_type with
  | ok u => rfl
  | error e => simp [hns]

/-- Witness for C10: a record without an id is formatted and submitted
under both `skip` (no composite match in the empty store) and `insert`. -/
theorem C10_missing_id_always_creates_witness :
    batch_import_record emptyStore "skip" "relationship" itemNoId
      = some (convert_to_dgraph_format_core itemNoId (some "relationship")) ∧
    batch_import_record emptyStore "insert" "relationship" itemNoId
      = some (convert_to_dgraph_format_core itemNoId (some "relationship")) :=
  ⟨by
    rw [(C10_missing_id_always_creates emptyStore "skip" "relationship" itemNoId
      (Or.inl rfl)).1]
    rfl
  , (C10_missing_id_always_creates emptyStore "insert" "relationship" itemNoId
      (Or.inl rfl)).2 (Or.inl rfl)⟩

end GraphragSpec
